import Mathlib

/-!
Verification development for the DICe `Camera_System` core
(`src/core/DICe_CameraSystem.cpp`): the rigid-body 3D transform with its
analytic Jacobian, the cross-camera projection pipeline's derivative
handling and precondition checks, and the three calibration-file parser
dialects (canonical DICe XML, legacy VIC3D xml, legacy txt).

Scalars are modelled as real numbers (`ℝ`) where the C++ computes with
`double` trigonometry, and as rationals (`ℚ`) in the parser, where every
value is either copied verbatim from the file or compared exactly.
-/

/-! ## Rigid-body 3D transform: rotation coefficients

From `Camera_System::initialize_rot_trans_3D`
(`DICe_CameraSystem.cpp:832-854`).  The rigid-body parameter vector is
ordered `[ANGLE_X, ANGLE_Y, ANGLE_Z, TRANSLATION_X, TRANSLATION_Y,
TRANSLATION_Z]` (indices 0..5, spec section 3 `RigidBodyParams`).

`cx,cy,cz`/`sx,sy,sz` abbreviate cosine/sine of the x/y/z angles exactly
as the local variables at lines 832-838 do. -/

/-- Row of rotate-translate coefficients for the x output coordinate:
`rot_trans_3D_x_` as assigned at `DICe_CameraSystem.cpp:843-846`. -/
noncomputable def rot_trans_3D_x (p : Fin 6 → ℝ) : Fin 4 → ℝ :=
  ![Real.cos (p 1) * Real.cos (p 2),
    Real.sin (p 0) * Real.sin (p 1) * Real.cos (p 2) - Real.cos (p 0) * Real.sin (p 2),
    Real.cos (p 0) * Real.sin (p 1) * Real.cos (p 2) + Real.sin (p 0) * Real.sin (p 2),
    p 3]

/-- Row of rotate-translate coefficients for the y output coordinate:
`rot_trans_3D_y_` as assigned at `DICe_CameraSystem.cpp:847-850`. -/
noncomputable def rot_trans_3D_y (p : Fin 6 → ℝ) : Fin 4 → ℝ :=
  ![Real.cos (p 1) * Real.sin (p 2),
    Real.sin (p 0) * Real.sin (p 1) * Real.sin (p 2) + Real.cos (p 0) * Real.cos (p 2),
    Real.cos (p 0) * Real.sin (p 1) * Real.sin (p 2) - Real.sin (p 0) * Real.cos (p 2),
    p 4]

/-- Row of rotate-translate coefficients for the z output coordinate:
`rot_trans_3D_z_` as assigned at `DICe_CameraSystem.cpp:851-854`. -/
noncomputable def rot_trans_3D_z (p : Fin 6 → ℝ) : Fin 4 → ℝ :=
  ![-Real.sin (p 1),
    Real.sin (p 0) * Real.cos (p 1),
    Real.cos (p 0) * Real.cos (p 1),
    p 5]

/-- One application of the rotate-translate transform to a single source
point, exactly the loop body at `DICe_CameraSystem.cpp:934-936`. -/
noncomputable def rot_trans_point (p : Fin 6 → ℝ) (s : ℝ × ℝ × ℝ) : ℝ × ℝ × ℝ :=
  (rot_trans_3D_x p 0 * s.1 + rot_trans_3D_x p 1 * s.2.1 + rot_trans_3D_x p 2 * s.2.2 + rot_trans_3D_x p 3,
   rot_trans_3D_y p 0 * s.1 + rot_trans_3D_y p 1 * s.2.1 + rot_trans_3D_y p 2 * s.2.2 + rot_trans_3D_y p 3,
   rot_trans_3D_z p 0 * s.1 + rot_trans_3D_z p 1 * s.2.1 + rot_trans_3D_z p 2 * s.2.2 + rot_trans_3D_z p 3)

/-! Spec-side rotation matrices, written from the spec's words
(section 4.4 rotation convention), used to compare the composed product
`Rz(γ)·Ry(β)·Rx(α)` and its stated closed form against the code. -/

/-- Elementary rotation about the x axis by `a` (spec section 4.4). -/
noncomputable def Rx_spec (a : ℝ) : Matrix (Fin 3) (Fin 3) ℝ :=
  !![1, 0, 0;
     0, Real.cos a, -Real.sin a;
     0, Real.sin a, Real.cos a]

/-- Elementary rotation about the y axis by `b` (spec section 4.4). -/
noncomputable def Ry_spec (b : ℝ) : Matrix (Fin 3) (Fin 3) ℝ :=
  !![Real.cos b, 0, Real.sin b;
     0, 1, 0;
     -Real.sin b, 0, Real.cos b]

/-- Elementary rotation about the z axis by `g` (spec section 4.4). -/
noncomputable def Rz_spec (g : ℝ) : Matrix (Fin 3) (Fin 3) ℝ :=
  !![Real.cos g, -Real.sin g, 0;
     Real.sin g, Real.cos g, 0;
     0, 0, 1]

/-- The closed-form composed rotation matrix exactly as the claim and the
spec (section 4.4) write its rows. -/
noncomputable def R_closed (a b g : ℝ) : Matrix (Fin 3) (Fin 3) ℝ :=
  !![Real.cos b * Real.cos g,
     Real.sin a * Real.sin b * Real.cos g - Real.cos a * Real.sin g,
     Real.cos a * Real.sin b * Real.cos g + Real.sin a * Real.sin g;
     Real.cos b * Real.sin g,
     Real.sin a * Real.sin b * Real.sin g + Real.cos a * Real.cos g,
     Real.cos a * Real.sin b * Real.sin g - Real.sin a * Real.cos g;
     -Real.sin b,
     Real.sin a * Real.cos b,
     Real.cos a * Real.cos b]

/-- C2: for every 6-entry rigid-body parameter vector and every source
point, the rotate-translate transform of `rot_trans_3D`
(`DICe_CameraSystem.cpp:832-854` coefficients applied at lines 933-937)
produces `R · source + T` where `R` is exactly the composed matrix
`Rz(γ)·Ry(β)·Rx(α)`, whose closed form has the rows stated in the claim. -/
theorem rot_trans_point_matches_closed_form (p : Fin 6 → ℝ) (x y z : ℝ) :
    Rz_spec (p 2) * Ry_spec (p 1) * Rx_spec (p 0) = R_closed (p 0) (p 1) (p 2) ∧
    rot_trans_point p (x, y, z) =
      ((Rz_spec (p 2) * Ry_spec (p 1) * Rx_spec (p 0)).mulVec ![x, y, z] 0 + p 3,
       (Rz_spec (p 2) * Ry_spec (p 1) * Rx_spec (p 0)).mulVec ![x, y, z] 1 + p 4,
       (Rz_spec (p 2) * Ry_spec (p 1) * Rx_spec (p 0)).mulVec ![x, y, z] 2 + p 5) := by
  have hR : Rz_spec (p 2) * Ry_spec (p 1) * Rx_spec (p 0) = R_closed (p 0) (p 1) (p 2) := by
    ext i j
    fin_cases i <;> fin_cases j <;>
      simp [Rx_spec, Ry_spec, Rz_spec, R_closed, Matrix.mul_apply, Fin.sum_univ_succ] <;>
      ring
  refine ⟨hR, ?_⟩
  rw [hR]
  simp only [rot_trans_point, rot_trans_3D_x, rot_trans_3D_y, rot_trans_3D_z, R_closed,
    Matrix.mulVec, Matrix.dotProduct, Fin.sum_univ_succ, Fin.sum_univ_zero]
  norm_num [Matrix.cons_val_zero, Matrix.cons_val_one, Matrix.head_cons]
  refine ⟨by ring, by ring, by ring⟩

/-! ## Rigid-body 3D transform: derivative coefficients

From `Camera_System::initialize_rot_trans_3D`
(`DICe_CameraSystem.cpp:856-895`).  Only the three angle rows (indices
`ANGLE_X = 0`, `ANGLE_Y = 1`, `ANGLE_Z = 2`) are assigned; the remaining
rows keep the zeros from the first-call initialization at lines 821-830. -/

/-- Derivative coefficient rows for the x output coordinate:
`rot_trans_3D_dx_` as assigned at lines 857-860, 870-873 and 883-886. -/
noncomputable def rot_trans_3D_dx (p : Fin 6 → ℝ) : Fin 6 → Fin 4 → ℝ := fun j =>
  if j = 0 then
    ![0,
      Real.cos (p 0) * Real.sin (p 1) * Real.cos (p 2) + Real.sin (p 0) * Real.sin (p 2),
      -Real.sin (p 0) * Real.sin (p 1) * Real.cos (p 2) + Real.cos (p 0) * Real.sin (p 2),
      0]
  else if j = 1 then
    ![-Real.sin (p 1) * Real.cos (p 2),
      Real.sin (p 0) * Real.cos (p 1) * Real.cos (p 2),
      Real.cos (p 0) * Real.cos (p 1) * Real.cos (p 2),
      0]
  else if j = 2 then
    ![-Real.cos (p 1) * Real.sin (p 2),
      -Real.sin (p 0) * Real.sin (p 1) * Real.sin (p 2) - Real.cos (p 0) * Real.cos (p 2),
      -Real.cos (p 0) * Real.sin (p 1) * Real.sin (p 2) + Real.sin (p 0) * Real.cos (p 2),
      0]
  else ![0, 0, 0, 0]

/-- Derivative coefficient rows for the y output coordinate:
`rot_trans_3D_dy_` as assigned at lines 861-864, 874-877 and 887-890. -/
noncomputable def rot_trans_3D_dy (p : Fin 6 → ℝ) : Fin 6 → Fin 4 → ℝ := fun j =>
  if j = 0 then
    ![0,
      Real.cos (p 0) * Real.sin (p 1) * Real.sin (p 2) - Real.sin (p 0) * Real.cos (p 2),
      -Real.sin (p 0) * Real.sin (p 1) * Real.sin (p 2) - Real.cos (p 0) * Real.cos (p 2),
      0]
  else if j = 1 then
    ![-Real.sin (p 1) * Real.sin (p 2),
      Real.sin (p 0) * Real.cos (p 1) * Real.sin (p 2),
      Real.cos (p 0) * Real.cos (p 1) * Real.sin (p 2),
      0]
  else if j = 2 then
    ![Real.cos (p 1) * Real.cos (p 2),
      Real.sin (p 0) * Real.sin (p 1) * Real.cos (p 2) - Real.cos (p 0) * Real.sin (p 2),
      Real.cos (p 0) * Real.sin (p 1) * Real.cos (p 2) + Real.sin (p 0) * Real.sin (p 2),
      0]
  else ![0, 0, 0, 0]

/-- Derivative coefficient rows for the z output coordinate:
`rot_trans_3D_dz_` as assigned at lines 865-868, 878-881 and 891-894. -/
noncomputable def rot_trans_3D_dz (p : Fin 6 → ℝ) : Fin 6 → Fin 4 → ℝ := fun j =>
  if j = 0 then
    ![0,
      Real.cos (p 0) * Real.cos (p 1),
      -Real.sin (p 0) * Real.cos (p 1),
      0]
  else if j = 1 then
    ![-Real.cos (p 1),
      -Real.sin (p 0) * Real.sin (p 1),
      -Real.cos (p 0) * Real.sin (p 1),
      0]
  else if j = 2 then ![0, 0, 0, 0]
  else ![0, 0, 0, 0]

/-- One column of the derivative output of `rot_trans_3D` for a single
source point, exactly lines 938-953: for the three angle parameters the
coefficient rows are applied to the source point (lines 941-945), the
translation rows are first zero-filled (lines 946-948) and then the
diagonal entries are set to one (lines 950-952), leaving the three
standard basis vectors. -/
noncomputable def rot_trans_point_derivs (p : Fin 6 → ℝ) (s : ℝ × ℝ × ℝ) (j : Fin 6) :
    ℝ × ℝ × ℝ :=
  if (j : ℕ) < 3 then
    (rot_trans_3D_dx p j 0 * s.1 + rot_trans_3D_dx p j 1 * s.2.1 + rot_trans_3D_dx p j 2 * s.2.2,
     rot_trans_3D_dy p j 0 * s.1 + rot_trans_3D_dy p j 1 * s.2.1 + rot_trans_3D_dy p j 2 * s.2.2,
     rot_trans_3D_dz p j 0 * s.1 + rot_trans_3D_dz p j 1 * s.2.1 + rot_trans_3D_dz p j 2 * s.2.2)
  else if j = 3 then (1, 0, 0)
  else if j = 4 then (0, 1, 0)
  else (0, 0, 1)

/-- Derivative of the transform in the x-angle parameter (column 0 of the
returned Jacobian). -/
theorem rot_trans_deriv_col0 (p : Fin 6 → ℝ) (s : ℝ × ℝ × ℝ) :
    HasDerivAt (fun a => rot_trans_point (Function.update p 0 a) s)
      (rot_trans_point_derivs p s 0) (p 0) := by
  obtain ⟨s1, s2, s3⟩ := s
  simp only [rot_trans_point, rot_trans_3D_x, rot_trans_3D_y, rot_trans_3D_z,
    Function.update_same, Function.update_noteq (by decide : (1 : Fin 6) ≠ 0),
    Function.update_noteq (by decide : (2 : Fin 6) ≠ 0),
    Function.update_noteq (by decide : (3 : Fin 6) ≠ 0),
    Function.update_noteq (by decide : (4 : Fin 6) ≠ 0),
    Function.update_noteq (by decide : (5 : Fin 6) ≠ 0),
    Matrix.cons_val_zero, Matrix.cons_val_one, Matrix.head_cons,
    Matrix.cons_val_two, Matrix.cons_val_three, Matrix.vecHead, Matrix.vecTail,
    Matrix.cons_val_succ, Function.comp_apply]
  have hx := (((hasDerivAt_const (p 0) (Real.cos (p 1) * Real.cos (p 2) * s1)).add
      (((((Real.hasDerivAt_sin (p 0)).mul_const (Real.sin (p 1))).mul_const (Real.cos (p 2))).sub
        ((Real.hasDerivAt_cos (p 0)).mul_const (Real.sin (p 2)))).mul_const s2)).add
      (((((Real.hasDerivAt_cos (p 0)).mul_const (Real.sin (p 1))).mul_const (Real.cos (p 2))).add
        ((Real.hasDerivAt_sin (p 0)).mul_const (Real.sin (p 2)))).mul_const s3)).add
      (hasDerivAt_const (p 0) (p 3))
  have hy := (((hasDerivAt_const (p 0) (Real.cos (p 1) * Real.sin (p 2) * s1)).add
      (((((Real.hasDerivAt_sin (p 0)).mul_const (Real.sin (p 1))).mul_const (Real.sin (p 2))).add
        ((Real.hasDerivAt_cos (p 0)).mul_const (Real.cos (p 2)))).mul_const s2)).add
      (((((Real.hasDerivAt_cos (p 0)).mul_const (Real.sin (p 1))).mul_const (Real.sin (p 2))).sub
        ((Real.hasDerivAt_sin (p 0)).mul_const (Real.cos (p 2)))).mul_const s3)).add
      (hasDerivAt_const (p 0) (p 4))
  have hz := (((hasDerivAt_const (p 0) (-Real.sin (p 1) * s1)).add
      (((Real.hasDerivAt_sin (p 0)).mul_const (Real.cos (p 1))).mul_const s2)).add
      (((Real.hasDerivAt_cos (p 0)).mul_const (Real.cos (p 1))).mul_const s3)).add
      (hasDerivAt_const (p 0) (p 5))
  refine (hx.prod (hy.prod hz)).congr_deriv ?_
  rw [show rot_trans_point_derivs p (s1, s2, s3) 0 =
    (0 * s1 + (Real.cos (p 0) * Real.sin (p 1) * Real.cos (p 2) + Real.sin (p 0) * Real.sin (p 2)) * s2 +
       (-Real.sin (p 0) * Real.sin (p 1) * Real.cos (p 2) + Real.cos (p 0) * Real.sin (p 2)) * s3,
     0 * s1 + (Real.cos (p 0) * Real.sin (p 1) * Real.sin (p 2) - Real.sin (p 0) * Real.cos (p 2)) * s2 +
       (-Real.sin (p 0) * Real.sin (p 1) * Real.sin (p 2) - Real.cos (p 0) * Real.cos (p 2)) * s3,
     0 * s1 + Real.cos (p 0) * Real.cos (p 1) * s2 + -Real.sin (p 0) * Real.cos (p 1) * s3) from rfl]
  simp only [Prod.mk.injEq]
  exact ⟨by ring, by ring, by ring⟩

/-- Derivative of the transform in the y-angle parameter (column 1 of the
returned Jacobian). -/
theorem rot_trans_deriv_col1 (p : Fin 6 → ℝ) (s : ℝ × ℝ × ℝ) :
    HasDerivAt (fun a => rot_trans_point (Function.update p 1 a) s)
      (rot_trans_point_derivs p s 1) (p 1) := by
  obtain ⟨s1, s2, s3⟩ := s
  simp only [rot_trans_point, rot_trans_3D_x, rot_trans_3D_y, rot_trans_3D_z,
    Function.update_same, Function.update_noteq (by decide : (0 : Fin 6) ≠ 1),
    Function.update_noteq (by decide : (2 : Fin 6) ≠ 1),
    Function.update_noteq (by decide : (3 : Fin 6) ≠ 1),
    Function.update_noteq (by decide : (4 : Fin 6) ≠ 1),
    Function.update_noteq (by decide : (5 : Fin 6) ≠ 1),
    Matrix.cons_val_zero, Matrix.cons_val_one, Matrix.head_cons,
    Matrix.cons_val_two, Matrix.cons_val_three, Matrix.vecHead, Matrix.vecTail,
    Matrix.cons_val_succ, Function.comp_apply]
  have hx := ((((((Real.hasDerivAt_cos (p 1)).mul_const (Real.cos (p 2))).mul_const s1).add
      ((((HasDerivAt.const_mul (Real.sin (p 0)) (Real.hasDerivAt_sin (p 1))).mul_const (Real.cos (p 2))).sub
        (hasDerivAt_const (p 1) (Real.cos (p 0) * Real.sin (p 2)))).mul_const s2)).add
      ((((HasDerivAt.const_mul (Real.cos (p 0)) (Real.hasDerivAt_sin (p 1))).mul_const (Real.cos (p 2))).add
        (hasDerivAt_const (p 1) (Real.sin (p 0) * Real.sin (p 2)))).mul_const s3)).add
      (hasDerivAt_const (p 1) (p 3)))
  have hy := ((((((Real.hasDerivAt_cos (p 1)).mul_const (Real.sin (p 2))).mul_const s1).add
      ((((HasDerivAt.const_mul (Real.sin (p 0)) (Real.hasDerivAt_sin (p 1))).mul_const (Real.sin (p 2))).add
        (hasDerivAt_const (p 1) (Real.cos (p 0) * Real.cos (p 2)))).mul_const s2)).add
      ((((HasDerivAt.const_mul (Real.cos (p 0)) (Real.hasDerivAt_sin (p 1))).mul_const (Real.sin (p 2))).sub
        (hasDerivAt_const (p 1) (Real.sin (p 0) * Real.cos (p 2)))).mul_const s3)).add
      (hasDerivAt_const (p 1) (p 4)))
  have hz := (((((Real.hasDerivAt_sin (p 1)).neg).mul_const s1).add
      ((HasDerivAt.const_mul (Real.sin (p 0)) (Real.hasDerivAt_cos (p 1))).mul_const s2)).add
      ((HasDerivAt.const_mul (Real.cos (p 0)) (Real.hasDerivAt_cos (p 1))).mul_const s3)).add
      (hasDerivAt_const (p 1) (p 5))
  refine (hx.prod (hy.prod hz)).congr_deriv ?_
  rw [show rot_trans_point_derivs p (s1, s2, s3) 1 =
    (-Real.sin (p 1) * Real.cos (p 2) * s1 + Real.sin (p 0) * Real.cos (p 1) * Real.cos (p 2) * s2 +
       Real.cos (p 0) * Real.cos (p 1) * Real.cos (p 2) * s3,
     -Real.sin (p 1) * Real.sin (p 2) * s1 + Real.sin (p 0) * Real.cos (p 1) * Real.sin (p 2) * s2 +
       Real.cos (p 0) * Real.cos (p 1) * Real.sin (p 2) * s3,
     -Real.cos (p 1) * s1 + -Real.sin (p 0) * Real.sin (p 1) * s2 +
       -Real.cos (p 0) * Real.sin (p 1) * s3) from rfl]
  simp only [Prod.mk.injEq]
  exact ⟨by ring, by ring, by ring⟩

/-- Derivative of the transform in the z-angle parameter (column 2 of the
returned Jacobian). -/
theorem rot_trans_deriv_col2 (p : Fin 6 → ℝ) (s : ℝ × ℝ × ℝ) :
    HasDerivAt (fun a => rot_trans_point (Function.update p 2 a) s)
      (rot_trans_point_derivs p s 2) (p 2) := by
  obtain ⟨s1, s2, s3⟩ := s
  simp only [rot_trans_point, rot_trans_3D_x, rot_trans_3D_y, rot_trans_3D_z,
    Function.update_same, Function.update_noteq (by decide : (0 : Fin 6) ≠ 2),
    Function.update_noteq (by decide : (1 : Fin 6) ≠ 2),
    Function.update_noteq (by decide : (3 : Fin 6) ≠ 2),
    Function.update_noteq (by decide : (4 : Fin 6) ≠ 2),
    Function.update_noteq (by decide : (5 : Fin 6) ≠ 2),
    Matrix.cons_val_zero, Matrix.cons_val_one, Matrix.head_cons,
    Matrix.cons_val_two, Matrix.cons_val_three, Matrix.vecHead, Matrix.vecTail,
    Matrix.cons_val_succ, Function.comp_apply]
  have hxA := (HasDerivAt.const_mul (Real.cos (p 1)) (Real.hasDerivAt_cos (p 2))).mul_const s1
  have hxB := ((HasDerivAt.const_mul (Real.sin (p 0) * Real.sin (p 1)) (Real.hasDerivAt_cos (p 2))).sub
      (HasDerivAt.const_mul (Real.cos (p 0)) (Real.hasDerivAt_sin (p 2)))).mul_const s2
  have hxC := ((HasDerivAt.const_mul (Real.cos (p 0) * Real.sin (p 1)) (Real.hasDerivAt_cos (p 2))).add
      (HasDerivAt.const_mul (Real.sin (p 0)) (Real.hasDerivAt_sin (p 2)))).mul_const s3
  have hx := ((hxA.add hxB).add hxC).add (hasDerivAt_const (p 2) (p 3))
  have hyA := (HasDerivAt.const_mul (Real.cos (p 1)) (Real.hasDerivAt_sin (p 2))).mul_const s1
  have hyB := ((HasDerivAt.const_mul (Real.sin (p 0) * Real.sin (p 1)) (Real.hasDerivAt_sin (p 2))).add
      (HasDerivAt.const_mul (Real.cos (p 0)) (Real.hasDerivAt_cos (p 2)))).mul_const s2
  have hyC := ((HasDerivAt.const_mul (Real.cos (p 0) * Real.sin (p 1)) (Real.hasDerivAt_sin (p 2))).sub
      (HasDerivAt.const_mul (Real.sin (p 0)) (Real.hasDerivAt_cos (p 2)))).mul_const s3
  have hy := ((hyA.add hyB).add hyC).add (hasDerivAt_const (p 2) (p 4))
  have hz := hasDerivAt_const (p 2)
      (-Real.sin (p 1) * s1 + Real.sin (p 0) * Real.cos (p 1) * s2 +
        Real.cos (p 0) * Real.cos (p 1) * s3 + p 5)
  refine (hx.prod (hy.prod hz)).congr_deriv ?_
  rw [show rot_trans_point_derivs p (s1, s2, s3) 2 =
    (-Real.cos (p 1) * Real.sin (p 2) * s1 +
       (-Real.sin (p 0) * Real.sin (p 1) * Real.sin (p 2) - Real.cos (p 0) * Real.cos (p 2)) * s2 +
       (-Real.cos (p 0) * Real.sin (p 1) * Real.sin (p 2) + Real.sin (p 0) * Real.cos (p 2)) * s3,
     Real.cos (p 1) * Real.cos (p 2) * s1 +
       (Real.sin (p 0) * Real.sin (p 1) * Real.cos (p 2) - Real.cos (p 0) * Real.sin (p 2)) * s2 +
       (Real.cos (p 0) * Real.sin (p 1) * Real.cos (p 2) + Real.sin (p 0) * Real.sin (p 2)) * s3,
     0 * s1 + 0 * s2 + 0 * s3) from rfl]
  simp only [Prod.mk.injEq]
  exact ⟨by ring, by ring, by ring⟩

/-- Derivative of the transform in the x-translation parameter (column 3
of the returned Jacobian): the first standard basis vector. -/
theorem rot_trans_deriv_col3 (p : Fin 6 → ℝ) (s : ℝ × ℝ × ℝ) :
    HasDerivAt (fun a => rot_trans_point (Function.update p 3 a) s)
      (rot_trans_point_derivs p s 3) (p 3) := by
  obtain ⟨s1, s2, s3⟩ := s
  simp only [rot_trans_point, rot_trans_3D_x, rot_trans_3D_y, rot_trans_3D_z,
    Function.update_same, Function.update_noteq (by decide : (0 : Fin 6) ≠ 3),
    Function.update_noteq (by decide : (1 : Fin 6) ≠ 3),
    Function.update_noteq (by decide : (2 : Fin 6) ≠ 3),
    Function.update_noteq (by decide : (4 : Fin 6) ≠ 3),
    Function.update_noteq (by decide : (5 : Fin 6) ≠ 3),
    Matrix.cons_val_zero, Matrix.cons_val_one, Matrix.head_cons,
    Matrix.cons_val_two, Matrix.cons_val_three, Matrix.vecHead, Matrix.vecTail,
    Matrix.cons_val_succ, Function.comp_apply]
  have hx := (hasDerivAt_const (p 3)
      (Real.cos (p 1) * Real.cos (p 2) * s1 +
        (Real.sin (p 0) * Real.sin (p 1) * Real.cos (p 2) - Real.cos (p 0) * Real.sin (p 2)) * s2 +
        (Real.cos (p 0) * Real.sin (p 1) * Real.cos (p 2) + Real.sin (p 0) * Real.sin (p 2)) * s3)).add
      (hasDerivAt_id (p 3))
  have hy := hasDerivAt_const (p 3)
      (Real.cos (p 1) * Real.sin (p 2) * s1 +
        (Real.sin (p 0) * Real.sin (p 1) * Real.sin (p 2) + Real.cos (p 0) * Real.cos (p 2)) * s2 +
        (Real.cos (p 0) * Real.sin (p 1) * Real.sin (p 2) - Real.sin (p 0) * Real.cos (p 2)) * s3 + p 4)
  have hz := hasDerivAt_const (p 3)
      (-Real.sin (p 1) * s1 + Real.sin (p 0) * Real.cos (p 1) * s2 +
        Real.cos (p 0) * Real.cos (p 1) * s3 + p 5)
  refine (hx.prod (hy.prod hz)).congr_deriv ?_
  rw [show rot_trans_point_derivs p (s1, s2, s3) 3 = ((1 : ℝ), (0 : ℝ), (0 : ℝ)) from rfl]
  norm_num [Prod.mk.injEq]

/-- Derivative of the transform in the y-translation parameter (column 4
of the returned Jacobian): the second standard basis vector. -/
theorem rot_trans_deriv_col4 (p : Fin 6 → ℝ) (s : ℝ × ℝ × ℝ) :
    HasDerivAt (fun a => rot_trans_point (Function.update p 4 a) s)
      (rot_trans_point_derivs p s 4) (p 4) := by
  obtain ⟨s1, s2, s3⟩ := s
  simp only [rot_trans_point, rot_trans_3D_x, rot_trans_3D_y, rot_trans_3D_z,
    Function.update_same, Function.update_noteq (by decide : (0 : Fin 6) ≠ 4),
    Function.update_noteq (by decide : (1 : Fin 6) ≠ 4),
    Function.update_noteq (by decide : (2 : Fin 6) ≠ 4),
    Function.update_noteq (by decide : (3 : Fin 6) ≠ 4),
    Function.update_noteq (by decide : (5 : Fin 6) ≠ 4),
    Matrix.cons_val_zero, Matrix.cons_val_one, Matrix.head_cons,
    Matrix.cons_val_two, Matrix.cons_val_three, Matrix.vecHead, Matrix.vecTail,
    Matrix.cons_val_succ, Function.comp_apply]
  have hx := hasDerivAt_const (p 4)
      (Real.cos (p 1) * Real.cos (p 2) * s1 +
        (Real.sin (p 0) * Real.sin (p 1) * Real.cos (p 2) - Real.cos (p 0) * Real.sin (p 2)) * s2 +
        (Real.cos (p 0) * Real.sin (p 1) * Real.cos (p 2) + Real.sin (p 0) * Real.sin (p 2)) * s3 + p 3)
  have hy := (hasDerivAt_const (p 4)
      (Real.cos (p 1) * Real.sin (p 2) * s1 +
        (Real.sin (p 0) * Real.sin (p 1) * Real.sin (p 2) + Real.cos (p 0) * Real.cos (p 2)) * s2 +
        (Real.cos (p 0) * Real.sin (p 1) * Real.sin (p 2) - Real.sin (p 0) * Real.cos (p 2)) * s3)).add
      (hasDerivAt_id (p 4))
  have hz := hasDerivAt_const (p 4)
      (-Real.sin (p 1) * s1 + Real.sin (p 0) * Real.cos (p 1) * s2 +
        Real.cos (p 0) * Real.cos (p 1) * s3 + p 5)
  refine (hx.prod (hy.prod hz)).congr_deriv ?_
  rw [show rot_trans_point_derivs p (s1, s2, s3) 4 = ((0 : ℝ), (1 : ℝ), (0 : ℝ)) from rfl]
  norm_num [Prod.mk.injEq]

/-- Derivative of the transform in the z-translation parameter (column 5
of the returned Jacobian): the third standard basis vector. -/
theorem rot_trans_deriv_col5 (p : Fin 6 → ℝ) (s : ℝ × ℝ × ℝ) :
    HasDerivAt (fun a => rot_trans_point (Function.update p 5 a) s)
      (rot_trans_point_derivs p s 5) (p 5) := by
  obtain ⟨s1, s2, s3⟩ := s
  simp only [rot_trans_point, rot_trans_3D_x, rot_trans_3D_y, rot_trans_3D_z,
    Function.update_same, Function.update_noteq (by decide : (0 : Fin 6) ≠ 5),
    Function.update_noteq (by decide : (1 : Fin 6) ≠ 5),
    Function.update_noteq (by decide : (2 : Fin 6) ≠ 5),
    Function.update_noteq (by decide : (3 : Fin 6) ≠ 5),
    Function.update_noteq (by decide : (4 : Fin 6) ≠ 5),
    Matrix.cons_val_zero, Matrix.cons_val_one, Matrix.head_cons,
    Matrix.cons_val_two, Matrix.cons_val_three, Matrix.vecHead, Matrix.vecTail,
    Matrix.cons_val_succ, Function.comp_apply]
  have hx := hasDerivAt_const (p 5)
      (Real.cos (p 1) * Real.cos (p 2) * s1 +
        (Real.sin (p 0) * Real.sin (p 1) * Real.cos (p 2) - Real.cos (p 0) * Real.sin (p 2)) * s2 +
        (Real.cos (p 0) * Real.sin (p 1) * Real.cos (p 2) + Real.sin (p 0) * Real.sin (p 2)) * s3 + p 3)
  have hy := hasDerivAt_const (p 5)
      (Real.cos (p 1) * Real.sin (p 2) * s1 +
        (Real.sin (p 0) * Real.sin (p 1) * Real.sin (p 2) + Real.cos (p 0) * Real.cos (p 2)) * s2 +
        (Real.cos (p 0) * Real.sin (p 1) * Real.sin (p 2) - Real.sin (p 0) * Real.cos (p 2)) * s3 + p 4)
  have hz := (hasDerivAt_const (p 5)
      (-Real.sin (p 1) * s1 + Real.sin (p 0) * Real.cos (p 1) * s2 +
        Real.cos (p 0) * Real.cos (p 1) * s3)).add
      (hasDerivAt_id (p 5))
  refine (hx.prod (hy.prod hz)).congr_deriv ?_
  rw [show rot_trans_point_derivs p (s1, s2, s3) 5 = ((0 : ℝ), (0 : ℝ), (1 : ℝ)) from rfl]
  norm_num [Prod.mk.injEq]

/-- C3: the six derivative columns returned by `rot_trans_3D`
(coefficients from `DICe_CameraSystem.cpp:856-895`, applied at lines
938-953) are the true partial derivatives of the transform.  For every
parameter index `j`, the function sending the `j`-th rigid-body parameter
to the transformed point has the returned column as its exact derivative:
the columns for the three translation parameters are the standard basis
vectors, and the columns for the three angle parameters are the
closed-form elementwise analytic derivative of the rotation applied to
the source point (no finite differencing). -/
theorem rot_trans_derivs_are_partials (p : Fin 6 → ℝ) (s : ℝ × ℝ × ℝ) (j : Fin 6) :
    HasDerivAt (fun a => rot_trans_point (Function.update p j a) s)
      (rot_trans_point_derivs p s j) (p j) := by
  fin_cases j
  · exact rot_trans_deriv_col0 p s
  · exact rot_trans_deriv_col1 p s
  · exact rot_trans_deriv_col2 p s
  · exact rot_trans_deriv_col3 p s
  · exact rot_trans_deriv_col4 p s
  · exact rot_trans_deriv_col5 p s

/-! ## Camera-system data model

From the `Camera_System` class (constructed at
`DICe_CameraSystem.cpp:54-62`) and the per-camera `Camera_Info` record it
stores.  The `Camera`/`Camera_Info` class itself lives outside `src/`
(`DICe_Camera.h`), so its fields and defaults are modelled from the
spec's data model (section 3). -/

/-- Lens distortion model enumeration (spec section 3). -/
inductive Lens_Distortion_Model where
  | NONE
  | OPENCV_DIS
  | VIC3D_DIS
  | K1R1_K2R2_K3R3
  | K1R2_K2R4_K3R6
  | K1R3_K2R5_K3R7
deriving DecidableEq

/-- 3D system type enumeration (spec section 3; the code uses
`UNKNOWN_SYSTEM`, `VIC3D` and `GENERIC_SYSTEM` plus canonical subtypes). -/
inductive System_Type_3D where
  | UNKNOWN_SYSTEM
  | OPENCV
  | VIC3D
  | GENERIC_SYSTEM
deriving DecidableEq

/-- Modelled from the spec: per-camera record `Camera::Camera_Info`
(class outside `src/`); fields and defaults per spec section 3
(intrinsics indexed `CX=0, CY=1, FX=2, FY=3, FS=4, K1=5 ... T2=18`,
translations and intrinsics default 0, rotation defaults to identity). -/
structure Camera_Info where
  id : String := ""
  intrinsics : Fin 19 → ℚ := fun _ => 0
  tx : ℚ := 0
  ty : ℚ := 0
  tz : ℚ := 0
  rotation_matrix : Fin 3 → Fin 3 → ℝ := fun i j => if i = j then 1 else 0
  image_height : ℤ := 0
  image_width : ℤ := 0
  pixel_depth : ℤ := 0
  lens : String := ""
  comments : String := ""
  lens_distortion_model : Lens_Distortion_Model := Lens_Distortion_Model.NONE

/-- Modelled from the spec: `Camera_Info::set_rotation_matrix(alpha, beta,
gamma)` (outside `src/`) builds the world-to-camera rotation using the
spec's section 4.4 convention `R = Rz(γ)·Ry(β)·Rx(α)` in closed form. -/
noncomputable def set_rotation_matrix (a b g : ℝ) : Fin 3 → Fin 3 → ℝ :=
  fun i j => R_closed a b g i j

/-- Modelled from the spec: the `DICe::Camera` constructor (outside
`src/`) validating its `Camera_Info`; per spec section 3,
`image_height` and `image_width` are required positive integers
("zero/negative is invalid"). -/
def mk_camera (info : Camera_Info) : Except String Camera_Info :=
  if info.image_height ≤ 0 ∨ info.image_width ≤ 0 then
    Except.error ("camera info is not valid")
  else Except.ok info

/-- The `Camera_System` aggregate.  Configuration fields are those set by
the constructor at `DICe_CameraSystem.cpp:54-62` plus the camera list;
`rot_trans_3D_x/y/z` and `rot_trans_3D_dx/dy/dz` are the member
rotation-coefficient scratch vectors written by
`initialize_rot_trans_3D` (the C++ declares them as mutable fields
`rot_trans_3D_x_` etc. of the shared object). -/
structure Camera_System where
  max_num_cameras_allowed : ℕ
  user_6x1_trans : List ℚ
  sys_type : System_Type_3D
  has_6_transform : Bool
  has_4x4_transform : Bool
  user_4x4_trans : Fin 4 → Fin 4 → ℚ
  cameras : List Camera_Info
  rot_trans_3D_x : List ℝ
  rot_trans_3D_y : List ℝ
  rot_trans_3D_z : List ℝ
  rot_trans_3D_dx : Fin 6 → List ℝ
  rot_trans_3D_dy : Fin 6 → List ℝ
  rot_trans_3D_dz : Fin 6 → List ℝ

/-- The default `Camera_System` constructor
(`DICe_CameraSystem.cpp:54-62`): max 10 cameras, 6 zeros for the user
6-parameter transform, unknown system type, no transforms, no cameras,
empty scratch vectors. -/
def Camera_System.init : Camera_System where
  max_num_cameras_allowed := 10
  user_6x1_trans := List.replicate 6 0
  sys_type := System_Type_3D.UNKNOWN_SYSTEM
  has_6_transform := false
  has_4x4_transform := false
  user_4x4_trans := fun _ _ => 0
  cameras := []
  rot_trans_3D_x := []
  rot_trans_3D_y := []
  rot_trans_3D_z := []
  rot_trans_3D_dx := fun _ => []
  rot_trans_3D_dy := fun _ => []
  rot_trans_3D_dz := fun _ => []

/-- `Camera_System::initialize_rot_trans_3D`
(`DICe_CameraSystem.cpp:817-896`): on first call (cache length differs
from 4) the scratch vectors are allocated (lines 821-830); a parameter
vector that does not have 6 entries raises (line 831); the rotation
coefficients (and, when requested, the derivative coefficient rows for
the three angles) are written into the member scratch fields. -/
noncomputable def initialize_rot_trans_3D (sys : Camera_System)
    (rigid_body_params : List ℝ) (wantDerivs : Bool) : Except String Camera_System :=
  let sys1 :=
    if sys.rot_trans_3D_x.length ≠ 4 then
      { sys with
        rot_trans_3D_x := List.replicate 4 0,
        rot_trans_3D_y := List.replicate 4 0,
        rot_trans_3D_z := List.replicate 4 0,
        rot_trans_3D_dx := fun _ => List.replicate 4 0,
        rot_trans_3D_dy := fun _ => List.replicate 4 0,
        rot_trans_3D_dz := fun _ => List.replicate 4 0 }
    else sys
  if rigid_body_params.length ≠ 6 then
    Except.error ("initialize_rot_trans_3D: rigid_body_params.size()!=6")
  else
    let p : Fin 6 → ℝ := fun i => rigid_body_params.getD i 0
    let sys2 := { sys1 with
      rot_trans_3D_x := List.ofFn (rot_trans_3D_x p),
      rot_trans_3D_y := List.ofFn (rot_trans_3D_y p),
      rot_trans_3D_z := List.ofFn (rot_trans_3D_z p) }
    if wantDerivs then
      Except.ok { sys2 with
        rot_trans_3D_dx := fun j =>
          if (j : ℕ) < 3 then List.ofFn (rot_trans_3D_dx p j) else sys2.rot_trans_3D_dx j,
        rot_trans_3D_dy := fun j =>
          if (j : ℕ) < 3 then List.ofFn (rot_trans_3D_dy p j) else sys2.rot_trans_3D_dy j,
        rot_trans_3D_dz := fun j =>
          if (j : ℕ) < 3 then List.ofFn (rot_trans_3D_dz p j) else sys2.rot_trans_3D_dz j }
    else Except.ok sys2

/-- Pairs up the three coordinate lists of a point batch. -/
def zip3 (xs ys zs : List ℝ) : List (ℝ × ℝ × ℝ) := xs.zip (ys.zip zs)

/-- Dot product of a 4-entry coefficient row with a source point
(first three entries only), as in the loops at
`DICe_CameraSystem.cpp:934-936` and 941-945. -/
def rowdot (row : List ℝ) (s : ℝ × ℝ × ℝ) : ℝ :=
  row.getD 0 0 * s.1 + row.getD 1 0 * s.2.1 + row.getD 2 0 * s.2.2

/-- The coordinate-transform loop of `rot_trans_3D`
(`DICe_CameraSystem.cpp:933-937`), reading the coefficient rows from the
member scratch fields. -/
def rot_trans_apply (sys : Camera_System) (pts : List (ℝ × ℝ × ℝ)) :
    List ℝ × List ℝ × List ℝ :=
  (pts.map (fun s => rowdot sys.rot_trans_3D_x s + sys.rot_trans_3D_x.getD 3 0),
   pts.map (fun s => rowdot sys.rot_trans_3D_y s + sys.rot_trans_3D_y.getD 3 0),
   pts.map (fun s => rowdot sys.rot_trans_3D_z s + sys.rot_trans_3D_z.getD 3 0))

/-- The derivative loop of `rot_trans_3D`
(`DICe_CameraSystem.cpp:938-953`): rows 0-2 apply the angle coefficient
rows to the points, rows 3-5 are zero-filled and then the diagonal row of
each coordinate is set to ones. -/
def rot_trans_apply_derivs (sys : Camera_System) (pts : List (ℝ × ℝ × ℝ)) (n : ℕ) :
    List (List ℝ) × List (List ℝ) × List (List ℝ) :=
  (List.ofFn (n := 6) (fun j =>
     if (j : ℕ) < 3 then pts.map (rowdot (sys.rot_trans_3D_dx j))
     else if j = 3 then List.replicate n 1 else List.replicate n 0),
   List.ofFn (n := 6) (fun j =>
     if (j : ℕ) < 3 then pts.map (rowdot (sys.rot_trans_3D_dy j))
     else if j = 4 then List.replicate n 1 else List.replicate n 0),
   List.ofFn (n := 6) (fun j =>
     if (j : ℕ) < 3 then pts.map (rowdot (sys.rot_trans_3D_dz j))
     else if j = 5 then List.replicate n 1 else List.replicate n 0))

/-- The precondition block of `Camera_System::rot_trans_3D`
(`DICe_CameraSystem.cpp:909-927`), check for check in source order.  The
first guard is `TEUCHOS_TEST_FOR_EXCEPTION(source_x.size()!=0, ...)`
(line 909), which raises whenever the source batch is nonempty. -/
def rot_trans_3D_checks (source_x source_y source_z target_x target_y target_z : List ℝ)
    (target_dx target_dy target_dz : List (List ℝ)) : Except String Unit :=
  if source_x.length ≠ 0 then Except.error ("rot_trans_3D: source_x.size()!=0") else
  if source_y.length ≠ source_x.length then Except.error ("rot_trans_3D: source_y size") else
  if source_z.length ≠ source_x.length then Except.error ("rot_trans_3D: source_z size") else
  if target_x.length ≠ source_x.length then Except.error ("rot_trans_3D: target_x size") else
  if target_y.length ≠ source_x.length then Except.error ("rot_trans_3D: target_y size") else
  if target_z.length ≠ source_x.length then Except.error ("rot_trans_3D: target_z size") else
  if 0 < target_dx.length ∧ target_dx.length ≠ 6 then Except.error ("rot_trans_3D: target_dx size") else
  if 0 < target_dx.length ∧ target_dy.length ≠ 6 then Except.error ("rot_trans_3D: target_dy size") else
  if 0 < target_dx.length ∧ target_dz.length ≠ 6 then Except.error ("rot_trans_3D: target_dz size") else
  if 0 < target_dx.length ∧ (target_dx.any (fun r => r.length != source_x.length) ∨
      target_dy.any (fun r => r.length != source_x.length) ∨
      target_dz.any (fun r => r.length != source_x.length)) then
    Except.error ("rot_trans_3D: derivative row size")
  else Except.ok ()

/-- `Camera_System::rot_trans_3D` (`DICe_CameraSystem.cpp:898-954`):
precondition checks, then coefficient preparation via
`initialize_rot_trans_3D` (writing the member scratch fields), then the
transform loop and, when derivative output rows were supplied, the
derivative loop (otherwise the derivative arrays are returned
untouched).  Returns the updated camera-system state together with the
outputs. -/
noncomputable def rot_trans_3D (sys : Camera_System)
    (source_x source_y source_z target_x target_y target_z : List ℝ)
    (params : List ℝ)
    (target_dx target_dy target_dz : List (List ℝ)) :
    Except String (Camera_System × (List ℝ × List ℝ × List ℝ) ×
      (List (List ℝ) × List (List ℝ) × List (List ℝ))) :=
  (rot_trans_3D_checks source_x source_y source_z target_x target_y target_z
      target_dx target_dy target_dz).bind (fun _ =>
    match initialize_rot_trans_3D sys params (0 < target_dx.length) with
    | Except.error e => Except.error e
    | Except.ok sys2 =>
      if 0 < target_dx.length then
        Except.ok (sys2, rot_trans_apply sys2 (zip3 source_x source_y source_z),
          rot_trans_apply_derivs sys2 (zip3 source_x source_y source_z) source_x.length)
      else
        Except.ok (sys2, rot_trans_apply sys2 (zip3 source_x source_y source_z),
          (target_dx, target_dy, target_dz)))

/-- C1: the claim states that a `rot_trans_3D` call with equal-length
nonzero coordinate batches and 6 rigid-body parameters succeeds, and that
an error is raised only when that precondition is violated.  The code
contradicts this: the guard at `DICe_CameraSystem.cpp:909` tests
`source_x.size()!=0` (instead of `==0`), so every call with a nonempty
batch raises even when the precondition holds, while the degenerate
empty-batch call is the one that passes. -/
theorem rot_trans_3D_inverted_guard :
    (rot_trans_3D Camera_System.init [1] [2] [3] [0] [0] [0]
      [0, 0, 0, 0, 0, 0] [] [] []).isOk = false ∧
    (rot_trans_3D Camera_System.init [] [] [] [] [] []
      [0, 0, 0, 0, 0, 0] [] [] []).isOk = true := by
  constructor <;> rfl

/-- C5 counterexample: a successful `rot_trans_3D` call does not leave
the `Camera_System` unchanged.  Starting from the freshly constructed
system (whose scratch cache is empty), the call writes the 4-entry
rotation-coefficient rows into the member fields: afterwards the
`rot_trans_3D_x_` member has length 4 where it had length 0 before. -/
theorem rot_trans_3D_mutates_cache :
    ((rot_trans_3D Camera_System.init [] [] [] [] [] []
        [0, 0, 0, 0, 0, 0] [] [] []).toOption.map
      (fun r => r.1.rot_trans_3D_x.length)) = some 4 ∧
    Camera_System.init.rot_trans_3D_x.length = 0 := by
  constructor <;> rfl

/-- The configuration fields (everything except the rotation-coefficient
scratch cache) of two camera systems agree. -/
def same_config (a b : Camera_System) : Prop :=
  a.cameras = b.cameras ∧ a.sys_type = b.sys_type ∧
  a.user_6x1_trans = b.user_6x1_trans ∧ a.has_6_transform = b.has_6_transform ∧
  a.has_4x4_transform = b.has_4x4_transform ∧ a.user_4x4_trans = b.user_4x4_trans ∧
  a.max_num_cameras_allowed = b.max_num_cameras_allowed

/-- `initialize_rot_trans_3D` only writes the scratch cache fields. -/
theorem initialize_rot_trans_3D_preserves_config (sys : Camera_System)
    (rbp : List ℝ) (w : Bool) :
    match initialize_rot_trans_3D sys rbp w with
    | Except.ok sys' => same_config sys' sys
    | Except.error _ => True := by
  unfold initialize_rot_trans_3D
  split_ifs <;> simp [same_config]

/-- C5 (amended): the claim asserts that `rot_trans_3D` (and hence
`camera_to_camera_projection`, whose only state writes happen inside the
`rot_trans_3D` call) leaves all `Camera_System` state unchanged, the
rotation-coefficient scratch being local to the call.  In the code the
scratch is stored in member fields (`rot_trans_3D_x_` and friends,
written by `initialize_rot_trans_3D` at `DICe_CameraSystem.cpp:821-895`),
so a call does mutate the shared object; what does hold is that every
configuration field — the camera list, system type, user transforms,
transform flags and the camera-count bound — is unchanged by any call. -/
theorem rot_trans_3D_preserves_config (sys : Camera_System)
    (sx sy sz tx ty tz : List ℝ) (params : List ℝ) (dx dy dz : List (List ℝ)) :
    match rot_trans_3D sys sx sy sz tx ty tz params dx dy dz with
    | Except.ok r => same_config r.1 sys
    | Except.error _ => True := by
  have hinit := initialize_rot_trans_3D_preserves_config sys params (0 < dx.length)
  unfold rot_trans_3D
  rcases hc : rot_trans_3D_checks sx sy sz tx ty tz dx dy dz with ec | u
  · exact trivial
  · rcases h : initialize_rot_trans_3D sys params (0 < dx.length) with e | sys2
    · rw [h] at hinit
      exact trivial
    · rw [h] at hinit
      by_cases hd : 0 < dx.length
      · simp only [if_pos hd]
        exact hinit
      · simp only [if_neg hd]
        exact hinit

/-! ## Cross-camera projection pipeline (per point)

`Camera_System::camera_to_camera_projection`
(`DICe_CameraSystem.cpp:720-815`) chains the source camera's optical
maps, an optional rigid-body transform, and the target camera's optical
maps.  The per-camera optical model (`DICe::Camera`) is outside `src/`,
so it is modelled from the spec as an abstract collaborator. -/

/-- Modelled from the spec: the per-camera optical model collaborator
(spec section 6): per-point value maps `image_to_sensor`,
`sensor_to_cam` (depending on the 3 optical shape parameters),
`cam_to_world`, `world_to_cam`, `cam_to_sensor`, `sensor_to_image`, and
for each stage a derivative overload; `sensor_to_cam_d` returns the
stage's own partials with respect to the 3 optical parameters, the other
`_d` maps propagate one upstream partial column through the stage's
Jacobian (chain rule, spec section 4.3 step 5). -/
structure Cam_Maps where
  image_to_sensor : ℝ × ℝ → ℝ × ℝ
  sensor_to_cam : ℝ × ℝ → (Fin 3 → ℝ) → ℝ × ℝ × ℝ
  sensor_to_cam_d : ℝ × ℝ → (Fin 3 → ℝ) → Fin 3 → ℝ × ℝ × ℝ
  cam_to_world : ℝ × ℝ × ℝ → ℝ × ℝ × ℝ
  cam_to_world_d : ℝ × ℝ × ℝ → ℝ × ℝ × ℝ → ℝ × ℝ × ℝ
  world_to_cam : ℝ × ℝ × ℝ → ℝ × ℝ × ℝ
  world_to_cam_d : ℝ × ℝ × ℝ → ℝ × ℝ × ℝ → ℝ × ℝ × ℝ
  cam_to_sensor : ℝ × ℝ × ℝ → ℝ × ℝ
  cam_to_sensor_d : ℝ × ℝ × ℝ → ℝ × ℝ × ℝ → ℝ × ℝ
  sensor_to_image : ℝ × ℝ → ℝ × ℝ
  sensor_to_image_d : ℝ × ℝ → ℝ × ℝ → ℝ × ℝ

/-- The derivative path of `camera_to_camera_projection` with a
rigid-body transform, per point (`DICe_CameraSystem.cpp:784-801`, branch
at 786-791): the source camera's `sensor_to_cam` and `cam_to_world` are
called WITHOUT derivative outputs ("no derivatives come into play until
the rotation and translation from the next call", line 789), the six
derivative columns are produced by `rot_trans_3D` alone, and then
propagated through the target camera's stages (lines 798-801). -/
noncomputable def c2c_rb_deriv_point (src tgt : Cam_Maps) (params : Fin 3 → ℝ)
    (rb : Fin 6 → ℝ) (ix iy : ℝ) : (ℝ × ℝ) × (Fin 6 → ℝ × ℝ) :=
  let sen := src.image_to_sensor (ix, iy)
  let cam := src.sensor_to_cam sen params
  let w0 := src.cam_to_world cam
  let w := rot_trans_point rb w0
  let dw : Fin 6 → ℝ × ℝ × ℝ := rot_trans_point_derivs rb w0
  let cam2 := tgt.world_to_cam w
  let dcam2 := fun j => tgt.world_to_cam_d w (dw j)
  let sen2 := tgt.cam_to_sensor cam2
  let dsen2 := fun j => tgt.cam_to_sensor_d cam2 (dcam2 j)
  (tgt.sensor_to_image sen2, fun j => tgt.sensor_to_image_d sen2 (dsen2 j))

/-- Application of the rotation part of the rigid-body transform alone
(the linear map `R`, no translation): the first three coefficients of
each row of `initialize_rot_trans_3D`. -/
noncomputable def Rot_apply (rb : Fin 6 → ℝ) (v : ℝ × ℝ × ℝ) : ℝ × ℝ × ℝ :=
  (rot_trans_3D_x rb 0 * v.1 + rot_trans_3D_x rb 1 * v.2.1 + rot_trans_3D_x rb 2 * v.2.2,
   rot_trans_3D_y rb 0 * v.1 + rot_trans_3D_y rb 1 * v.2.1 + rot_trans_3D_y rb 2 * v.2.2,
   rot_trans_3D_z rb 0 * v.1 + rot_trans_3D_z rb 1 * v.2.1 + rot_trans_3D_z rb 2 * v.2.2)

/-- Modelled from the spec: the derivative layout that C4 claims for the
rigid-body derivative path — columns 0-2 are the upstream optical
partials (the `sensor_to_cam` partials with respect to the 3 optical
parameters, pushed through `cam_to_world`) propagated through the
rigid-body linear map `R`, and columns 3-5 are rigid-body columns
computed directly; all columns then propagate through the target
camera's stages exactly as in the code. -/
noncomputable def c2c_rb_deriv_point_claimed (src tgt : Cam_Maps) (params : Fin 3 → ℝ)
    (rb : Fin 6 → ℝ) (ix iy : ℝ) : (ℝ × ℝ) × (Fin 6 → ℝ × ℝ) :=
  let sen := src.image_to_sensor (ix, iy)
  let cam := src.sensor_to_cam sen params
  let w0 := src.cam_to_world cam
  let w := rot_trans_point rb w0
  let dw : Fin 6 → ℝ × ℝ × ℝ := fun j =>
    if h : (j : ℕ) < 3 then
      Rot_apply rb (src.cam_to_world_d cam (src.sensor_to_cam_d sen params ⟨(j : ℕ), h⟩))
    else rot_trans_point_derivs rb w0 j
  let cam2 := tgt.world_to_cam w
  let dcam2 := fun j => tgt.world_to_cam_d w (dw j)
  let sen2 := tgt.cam_to_sensor cam2
  let dsen2 := fun j => tgt.cam_to_sensor_d cam2 (dcam2 j)
  (tgt.sensor_to_image sen2, fun j => tgt.sensor_to_image_d sen2 (dsen2 j))

/-- A concrete instantiation of the optical collaborator: pass-through
maps with `sensor_to_cam (x, y) = (x, y, 1)` and a nonzero optical
partial in parameter 0. -/
def idMaps : Cam_Maps where
  image_to_sensor := fun q => q
  sensor_to_cam := fun q _ => (q.1, q.2, 1)
  sensor_to_cam_d := fun _ _ j => if j = 0 then (1, 0, 0) else (0, 0, 0)
  cam_to_world := fun v => v
  cam_to_world_d := fun _ d => d
  world_to_cam := fun v => v
  world_to_cam_d := fun _ d => d
  cam_to_sensor := fun v => (v.1, v.2.1)
  cam_to_sensor_d := fun _ d => (d.1, d.2.1)
  sensor_to_image := fun q => q
  sensor_to_image_d := fun _ d => d

/-- C4 counterexample: with pass-through optics, zero rigid-body
parameters and source pixel (0,0), the first returned derivative column
of the code's rigid-body path is the angle-x rigid-body column (0, -1),
not the propagated optical column (1, 0) that the claim describes: the
code never computes or propagates the upstream optical partials in this
branch. -/
theorem c2c_rigid_columns_not_optical :
    (c2c_rb_deriv_point idMaps idMaps (fun _ => 0) (fun _ => 0) 0 0).2 0 ≠
      (c2c_rb_deriv_point_claimed idMaps idMaps (fun _ => 0) (fun _ => 0) 0 0).2 0 := by
  have hcode : (c2c_rb_deriv_point idMaps idMaps (fun _ => 0) (fun _ => 0) 0 0).2 0 =
      ((0 : ℝ), (-1 : ℝ)) := by
    simp [c2c_rb_deriv_point, idMaps, rot_trans_point, rot_trans_point_derivs,
      rot_trans_3D_dx, rot_trans_3D_dy, rot_trans_3D_dz,
      rot_trans_3D_x, rot_trans_3D_y, rot_trans_3D_z]
  have hclaim : (c2c_rb_deriv_point_claimed idMaps idMaps (fun _ => 0) (fun _ => 0) 0 0).2 0 =
      ((1 : ℝ), (0 : ℝ)) := by
    simp [c2c_rb_deriv_point_claimed, idMaps, Rot_apply, rot_trans_point,
      rot_trans_point_derivs, rot_trans_3D_x, rot_trans_3D_y, rot_trans_3D_z]
  rw [hcode, hclaim]
  intro h
  have := congrArg Prod.fst h
  norm_num at this

/-- C4 (amended): in the rigid-body derivative path of
`camera_to_camera_projection`, the upstream optical partials are not
computed at all — the result is independent of the source camera's
`sensor_to_cam` derivative overload — and all six derivative columns are
the rigid-body Jacobian columns of `rot_trans_3D` (three angle columns
followed by the three translation basis columns), propagated through the
target camera's stages. -/
theorem c2c_rigid_derivative_columns (src tgt : Cam_Maps)
    (d' : ℝ × ℝ → (Fin 3 → ℝ) → Fin 3 → ℝ × ℝ × ℝ)
    (params : Fin 3 → ℝ) (rb : Fin 6 → ℝ) (ix iy : ℝ) :
    c2c_rb_deriv_point { src with sensor_to_cam_d := d' } tgt params rb ix iy =
      c2c_rb_deriv_point src tgt params rb ix iy ∧
    (c2c_rb_deriv_point src tgt params rb ix iy).2 = fun j =>
      tgt.sensor_to_image_d
        (tgt.cam_to_sensor (tgt.world_to_cam (rot_trans_point rb
          (src.cam_to_world (src.sensor_to_cam (src.image_to_sensor (ix, iy)) params)))))
        (tgt.cam_to_sensor_d
          (tgt.world_to_cam (rot_trans_point rb
            (src.cam_to_world (src.sensor_to_cam (src.image_to_sensor (ix, iy)) params))))
          (tgt.world_to_cam_d
            (rot_trans_point rb
              (src.cam_to_world (src.sensor_to_cam (src.image_to_sensor (ix, iy)) params)))
            (rot_trans_point_derivs rb
              (src.cam_to_world (src.sensor_to_cam (src.image_to_sensor (ix, iy)) params)) j))) :=
  ⟨rfl, rfl⟩

/-- `Camera_System::num_cameras()`: the number of loaded cameras. -/
def num_cameras (sys : Camera_System) : ℕ := sys.cameras.length

/-- The precondition block of
`Camera_System::camera_to_camera_projection`
(`DICe_CameraSystem.cpp:732-757`), check for check in source order.  The
ids are `size_t`, so the `source_id<0` halves of the id guards are
vacuous; the same-camera check at line 734 is commented out in the
source.  When derivatives are requested the parameter count must be 6
with a rigid-body transform and 3 without, the two derivative arrays
must have matching row counts, and every row must match the batch
length; a supplied rigid-body vector must have 6 entries. -/
def camera_to_camera_projection_checks (sys : Camera_System) (source_id target_id : ℕ)
    (img_source_x img_source_y img_target_x img_target_y : List ℝ)
    (params : List ℝ) (img_target_dx img_target_dy : List (List ℝ))
    (rigid_body_params : List ℝ) : Except String Unit :=
  if params.length ≠ 3 then Except.error ("params size") else
  if ¬ source_id < num_cameras sys then Except.error ("invalid source id") else
  if ¬ target_id < num_cameras sys then Except.error ("invalid target id") else
  if img_source_y.length ≠ img_source_x.length then Except.error ("img_source_y size") else
  if img_target_x.length ≠ img_source_x.length then Except.error ("img_target_x size") else
  if img_target_y.length ≠ img_source_x.length then Except.error ("img_target_y size") else
  if 0 < img_target_dx.length ∧ 0 < rigid_body_params.length ∧ img_target_dx.length ≠ 6 then
    Except.error ("num_params!=6") else
  if 0 < img_target_dx.length ∧ rigid_body_params.length = 0 ∧ img_target_dx.length ≠ 3 then
    Except.error ("num_params!=3") else
  if 0 < img_target_dx.length ∧ img_target_dy.length ≠ img_target_dx.length then
    Except.error ("img_target_dy size") else
  if 0 < img_target_dx.length ∧ (img_target_dx.any (fun r => r.length != img_source_x.length) ∨
      img_target_dy.any (fun r => r.length != img_source_x.length)) then
    Except.error ("derivative row size") else
  if 0 < rigid_body_params.length ∧ rigid_body_params.length ≠ 6 then
    Except.error ("invalid rigid body parameter vector size") else
  Except.ok ()

/-- The precondition of `project` as the spec (section 4.3) states it:
valid camera indices, 3 optical parameters, equal-length coordinate
batches, consistent derivative configuration (6 parameters with a
rigid-body transform, 3 without, every row of batch length), and a
6-entry rigid-body vector when one is supplied. -/
def c2c_sizes_ok (sys : Camera_System) (source_id target_id : ℕ)
    (img_source_x img_source_y img_target_x img_target_y : List ℝ)
    (params : List ℝ) (img_target_dx img_target_dy : List (List ℝ))
    (rigid_body_params : List ℝ) : Prop :=
  params.length = 3 ∧ source_id < num_cameras sys ∧ target_id < num_cameras sys ∧
  img_source_y.length = img_source_x.length ∧
  img_target_x.length = img_source_x.length ∧
  img_target_y.length = img_source_x.length ∧
  (0 < img_target_dx.length →
    ((0 < rigid_body_params.length → img_target_dx.length = 6) ∧
     (rigid_body_params.length = 0 → img_target_dx.length = 3) ∧
     img_target_dy.length = img_target_dx.length ∧
     (∀ r ∈ img_target_dx, r.length = img_source_x.length) ∧
     (∀ r ∈ img_target_dy, r.length = img_source_x.length))) ∧
  (0 < rigid_body_params.length → rigid_body_params.length = 6)

set_option maxHeartbeats 1000000 in
/-- C10: `camera_to_camera_projection` accepts `source_id = target_id`:
for every camera index `i < num_cameras()` and well-sized inputs, the
precondition block passes (the same-camera check at
`DICe_CameraSystem.cpp:734` is commented out, and no other guard
compares the two ids). -/
theorem c2c_checks_accept_same_id (sys : Camera_System) (i : ℕ)
    (xs ys txs tys : List ℝ) (params : List ℝ) (dxs dys : List (List ℝ)) (rb : List ℝ)
    (h : c2c_sizes_ok sys i i xs ys txs tys params dxs dys rb) :
    camera_to_camera_projection_checks sys i i xs ys txs tys params dxs dys rb =
      Except.ok () := by
  obtain ⟨hp, hi, -, hy, htx, hty, hder, hrb⟩ := h
  unfold camera_to_camera_projection_checks
  split_ifs with h1 h2 h3 h4 h5 h6 h7 h8 h9
  · exact absurd hp h1
  · exact absurd hy h2
  · exact absurd htx h3
  · exact absurd hty h4
  · exact absurd ((hder h5.1).1 h5.2.1) h5.2.2
  · exact absurd ((hder h6.1).2.1 h6.2.1) h6.2.2
  · exact absurd ((hder h7.1).2.2.1) h7.2
  · rcases h8.2 with hx | hyy
    · rcases List.any_eq_true.mp hx with ⟨r, hr, hne⟩
      exact absurd ((hder h8.1).2.2.2.1 r hr) (by simpa using hne)
    · rcases List.any_eq_true.mp hyy with ⟨r, hr, hne⟩
      exact absurd ((hder h8.1).2.2.2.2 r hr) (by simpa using hne)
  · exact absurd (hrb h9.1) h9.2
  · rfl

/-- A one-camera system for exercising the projection precondition. -/
noncomputable def sysOneCam : Camera_System :=
  { Camera_System.init with cameras := [{}] }

/-- Witness for C10: the concrete call `project(0, 0, ...)` on a
one-camera system with a single point and 3 optical parameters passes
every precondition check. -/
theorem c2c_checks_accept_same_id_witness :
    camera_to_camera_projection_checks sysOneCam 0 0 [0] [0] [0] [0] [0, 0, 0] [] [] [] =
      Except.ok () :=
  c2c_checks_accept_same_id sysOneCam 0 [0] [0] [0] [0] [0, 0, 0] [] [] []
    ⟨rfl, by decide, by decide, rfl, rfl, rfl,
      fun h => absurd h (by decide), fun h => absurd h (by decide)⟩

/-! ## Calibration parser: canonical DICe XML dialect

`Camera_System::read_calibration_file` (`DICe_CameraSystem.cpp:69-490`).
The Teuchos `ParameterList` machinery and XML reading are outside
`src/`, so the already-read parameter list is modelled as a tree of
named values and named sublists; string-array values
(`IMAGE_HEIGHT_WIDTH`, matrix rows, the 6-parameter transform) are
modelled as already-tokenized arrays, standing for the C++ pattern
`get<std::string>` + `Teuchos::fromStringToArray`. -/

/-- Modelled from the spec: one Teuchos parameter value. -/
inductive PValue where
  | str : String → PValue
  | real : ℚ → PValue
  | int : ℤ → PValue
  | bool : Bool → PValue
  | arr : List ℚ → PValue
  | arrInt : List ℤ → PValue
deriving DecidableEq

/-- Modelled from the spec: a Teuchos `ParameterList` — named values
plus named sublists. -/
inductive PList where
  | mk : List (String × PValue) → List (String × PList) → PList

/-- The named values of a parameter list. -/
def PList.params : PList → List (String × PValue)
  | .mk ps _ => ps

/-- The named sublists of a parameter list. -/
def PList.sublists : PList → List (String × PList)
  | .mk _ ss => ss

/-- `ParameterList::isParameter`. -/
def PList.isParameter (pl : PList) (name : String) : Bool :=
  (pl.params.lookup name).isSome

/-- `ParameterList::isSublist`. -/
def PList.isSublist (pl : PList) (name : String) : Bool :=
  (pl.sublists.lookup name).isSome

/-- `ParameterList::sublist` (only called after `isSublist` checks; a
missing name yields the empty list). -/
def PList.sublistD (pl : PList) (name : String) : PList :=
  (pl.sublists.lookup name).getD (.mk [] [])

/-- `ParameterList::get<std::string>`: throws when the parameter is
missing or has another type. -/
def PList.getString (pl : PList) (name : String) : Except String String :=
  match pl.params.lookup name with
  | some (PValue.str s) => Except.ok s
  | some _ => Except.error ("Teuchos get: wrong parameter type")
  | none => Except.error ("Teuchos get: parameter missing")

/-- `ParameterList::get<double>`. -/
def PList.getReal (pl : PList) (name : String) : Except String ℚ :=
  match pl.params.lookup name with
  | some (PValue.real q) => Except.ok q
  | some _ => Except.error ("Teuchos get: wrong parameter type")
  | none => Except.error ("Teuchos get: parameter missing")

/-- `ParameterList::get<int_t>`. -/
def PList.getInt (pl : PList) (name : String) : Except String ℤ :=
  match pl.params.lookup name with
  | some (PValue.int z) => Except.ok z
  | some _ => Except.error ("Teuchos get: wrong parameter type")
  | none => Except.error ("Teuchos get: parameter missing")

/-- `get<std::string>` + `fromStringToArray<scalar_t>` on a row/array
parameter. -/
def PList.getArr (pl : PList) (name : String) : Except String (List ℚ) :=
  match pl.params.lookup name with
  | some (PValue.arr a) => Except.ok a
  | some _ => Except.error ("Teuchos get: wrong parameter type")
  | none => Except.error ("Teuchos get: parameter missing")

/-- `get<std::string>` + `fromStringToArray<int_t>`. -/
def PList.getArrInt (pl : PList) (name : String) : Except String (List ℤ) :=
  match pl.params.lookup name with
  | some (PValue.arrInt a) => Except.ok a
  | some _ => Except.error ("Teuchos get: wrong parameter type")
  | none => Except.error ("Teuchos get: parameter missing")

/-- Modelled from the spec: `Camera::string_to_lens_distortion_model`
(outside `src/`), over the spec's enumerated names; unknown strings are
mapped to `NONE`. -/
def string_to_lens_distortion_model (s : String) : Lens_Distortion_Model :=
  if s = "OPENCV_DIS" then Lens_Distortion_Model.OPENCV_DIS
  else if s = "VIC3D_DIS" then Lens_Distortion_Model.VIC3D_DIS
  else if s = "K1R1_K2R2_K3R3" then Lens_Distortion_Model.K1R1_K2R2_K3R3
  else if s = "K1R2_K2R4_K3R6" then Lens_Distortion_Model.K1R2_K2R4_K3R6
  else if s = "K1R3_K2R5_K3R7" then Lens_Distortion_Model.K1R3_K2R5_K3R7
  else Lens_Distortion_Model.NONE

/-- Modelled from the spec: `string_to_system_type_3d` (outside `src/`). -/
def string_to_system_type_3d (s : String) : System_Type_3D :=
  if s = "OPENCV" then System_Type_3D.OPENCV
  else if s = "VIC3D" then System_Type_3D.VIC3D
  else if s = "GENERIC_SYSTEM" then System_Type_3D.GENERIC_SYSTEM
  else System_Type_3D.UNKNOWN_SYSTEM

/-- Modelled from the spec: the printed names of the intrinsic
parameters, in enumeration order (spec section 3). -/
def intrinsic_names : List String :=
  ["CX", "CY", "FX", "FY", "FS", "K1", "K2", "K3", "K4", "K5", "K6",
   "P1", "P2", "S1", "S2", "S3", "S4", "T1", "T2"]

/-- Reading one `CAMERA <i>` sublist of the canonical dialect
(`DICe_CameraSystem.cpp:112-217`): required `IMAGE_HEIGHT_WIDTH` and
`LENS_DISTORTION_MODEL`, optional intrinsics by name (lines 129-135),
optional `TX`/`TY`/`TZ`, optional Euler angles (lines 149-170), optional
`CAMERA_ID` (default `CAMERA <i>`), `PIXEL_DEPTH`, `LENS`, `COMMENTS`,
and finally the optional `rotation_3x3_matrix` sublist (lines 198-214).
Note the row check at line 207 is
`TEUCHOS_TEST_FOR_EXCEPTION(camRot.isParameter(row), ..., "cal file
missing row ...")` — it raises precisely when the row IS present. -/
noncomputable def read_camera_sublist (i : ℕ) (camParams : PList) :
    Except String Camera_Info := do
  if ¬ camParams.isParameter ("IMAGE_HEIGHT_WIDTH") then
    throw ("calibration file missing IMAGE_HEIGHT_WIDTH")
  if ¬ camParams.isParameter ("LENS_DISTORTION_MODEL") then
    throw ("calibration file missing LENS_DISTORITION_MODEL")
  let ldm_str ← camParams.getString ("LENS_DISTORTION_MODEL")
  let hw ← camParams.getArrInt ("IMAGE_HEIGHT_WIDTH")
  let image_height := hw.getD 0 0
  let image_width := hw.getD 1 0
  let intr ← (List.range 19).foldlM (fun (acc : Fin 19 → ℚ) k =>
      if h : k < 19 then
        if camParams.isParameter (intrinsic_names.getD k "") then do
          let v ← camParams.getReal (intrinsic_names.getD k "")
          pure (Function.update acc ⟨k, h⟩ v)
        else pure acc
      else pure acc) (fun _ => 0)
  let tx ← if camParams.isParameter ("TX") then camParams.getReal ("TX") else pure 0
  let ty ← if camParams.isParameter ("TY") then camParams.getReal ("TY") else pure 0
  let tz ← if camParams.isParameter ("TZ") then camParams.getReal ("TZ") else pure 0
  let alpha ← if camParams.isParameter ("ALPHA") then camParams.getReal ("ALPHA") else pure 0
  let beta ← if camParams.isParameter ("BETA") then camParams.getReal ("BETA") else pure 0
  let gamma ← if camParams.isParameter ("GAMMA") then camParams.getReal ("GAMMA") else pure 0
  let has_eulers := camParams.isParameter ("ALPHA") || camParams.isParameter ("BETA") ||
    camParams.isParameter ("GAMMA")
  let rot0 : Fin 3 → Fin 3 → ℝ :=
    if has_eulers then set_rotation_matrix ((alpha : ℚ) : ℝ) ((beta : ℚ) : ℝ) ((gamma : ℚ) : ℝ)
    else fun a b => if a = b then 1 else 0
  let camera_id ← if camParams.isParameter ("CAMERA_ID") then camParams.getString ("CAMERA_ID")
    else pure ("CAMERA " ++ toString i)
  let pixel_depth ← if camParams.isParameter ("PIXEL_DEPTH") then camParams.getInt ("PIXEL_DEPTH")
    else pure 0
  let lens ← if camParams.isParameter ("LENS") then camParams.getString ("LENS") else pure ""
  let comments ← if camParams.isParameter ("COMMENTS") then camParams.getString ("COMMENTS")
    else pure ""
  let rot ←
    if camParams.isSublist ("rotation_3x3_matrix") then do
      if has_eulers then throw ("cannot specify euler angles and rotation matrix")
      let camRot := camParams.sublistD ("rotation_3x3_matrix")
      let step := fun (m : Fin 3 → Fin 3 → ℝ) (j : Fin 3) => do
        if camRot.isParameter ("ROW " ++ toString (j : ℕ)) then
          throw ("cal file missing row for camera 3x3 rotation matrix")
        let row ← camRot.getArr ("ROW " ++ toString (j : ℕ))
        pure (fun a b => if a = j then ((row.getD (b : ℕ) 0 : ℚ) : ℝ) else m a b)
      let m0 ← step rot0 0
      let m1 ← step m0 1
      step m1 2
    else pure rot0
  pure { id := camera_id, intrinsics := intr, tx := tx, ty := ty, tz := tz,
         rotation_matrix := rot, image_height := image_height, image_width := image_width,
         pixel_depth := pixel_depth, lens := lens, comments := comments,
         lens_distortion_model := string_to_lens_distortion_model ldm_str }

/-- The camera-enumeration loop of the canonical dialect
(`DICe_CameraSystem.cpp:104-221`): for `i` from 0 below
`max_num_cameras_allowed_ = 10`, raise "too many cameras" as soon as
`i == max-1` (line 106), otherwise look for the sublist whose name is
built by `camera_sublist_id << "CAMERA " << i << std::endl` — note the
`std::endl`, so the key carries a trailing newline — and stop at the
first missing group. -/
noncomputable def read_cameras_loop (sys_params : PList) :
    ℕ → ℕ → List Camera_Info → Except String (List Camera_Info)
  | _, 0, acc => Except.ok acc
  | i, fuel + 1, acc =>
    if i = 9 then Except.error ("too many cameras defined in the xml calibration file")
    else if sys_params.isSublist ("CAMERA " ++ toString i ++ "\n") then
      match read_camera_sublist i (sys_params.sublistD ("CAMERA " ++ toString i ++ "\n")) with
      | Except.error e => Except.error e
      | Except.ok info =>
        match mk_camera info with
        | Except.error e => Except.error e
        | Except.ok cam => read_cameras_loop sys_params (i + 1) fuel (acc ++ [cam])
    else Except.ok acc

/-- The full enumeration starts at index 0 with the 10 loop iterations
of `for(i = 0; i < max_num_cameras_allowed_; ++i)`. -/
noncomputable def read_cameras_from (sys_params : PList) (i : ℕ)
    (acc : List Camera_Info) : Except String (List Camera_Info) :=
  read_cameras_loop sys_params i (10 - i) acc

/-- The canonical-dialect branch of `read_calibration_file`
(`DICe_CameraSystem.cpp:90-266`): the marker parameter and
`system_type_3D` are required, then cameras are enumerated, then the
optional user 6-parameter transform (lines 224-233) and 4x4 transform
(lines 235-249) are read. -/
noncomputable def read_calibration_canonical (sys_params : PList) :
    Except String Camera_System := do
  if ¬ sys_params.isParameter ("DICe_XML_Calibration_File") then
    throw ("DICe XML calibration file not valid")
  if ¬ sys_params.isParameter ("system_type_3D") then
    throw ("calibration file missing system_type_3D")
  let st_str ← sys_params.getString ("system_type_3D")
  let cams ← read_cameras_from sys_params 0 []
  let u6 ←
    if sys_params.isParameter ("user_6_param_transform") then do
      let a ← sys_params.getArr ("user_6_param_transform")
      pure (some ((List.range 6).map (fun k => a.getD k 0)))
    else pure none
  let u44 ←
    if sys_params.isSublist ("user_4x4_param_transform") then do
      let camRow := sys_params.sublistD ("user_4x4_param_transform")
      let step := fun (m : Fin 4 → Fin 4 → ℚ) (j : Fin 4) => do
        let row ← camRow.getArr ("ROW " ++ toString (j : ℕ))
        pure (fun a b => if a = j then row.getD (b : ℕ) 0 else m a b)
      let m0 ← step (fun _ _ => 0) 0
      let m1 ← step m0 1
      let m2 ← step m1 2
      let m3 ← step m2 3
      pure (some m3)
    else pure none
  pure { Camera_System.init with
         sys_type := string_to_system_type_3d st_str,
         cameras := cams,
         has_6_transform := u6.isSome,
         user_6x1_trans := u6.getD (List.replicate 6 0),
         has_4x4_transform := u44.isSome,
         user_4x4_trans := u44.getD (fun _ _ => 0) }

/-- A canonical camera group specifying its rotation with a
`rotation_3x3_matrix` sublist holding `ROW 0`, `ROW 1`, `ROW 2` and no
Euler angles. -/
def camRotPList : PList := PList.mk
  [("IMAGE_HEIGHT_WIDTH", PValue.arrInt [480, 640]),
   ("LENS_DISTORTION_MODEL", PValue.str "NONE")]
  [("rotation_3x3_matrix", PList.mk
     [("ROW 0", PValue.arr [1, 0, 0]),
      ("ROW 1", PValue.arr [0, 1, 0]),
      ("ROW 2", PValue.arr [0, 0, 1])] [])]

/-- Extracts the error message of a failed parse. -/
def errMsg {α : Type} : Except String α → Option String
  | Except.error s => some s
  | Except.ok _ => none

/-- C6: the claim says a canonical camera group with a
`rotation_3x3_matrix` sublist holding the three `ROW j` parameters (and
no Euler angles) parses, with the rotation matrix set from the rows.
The code rejects it: the check at `DICe_CameraSystem.cpp:207` raises
"cal file missing row for camera 3x3 rotation matrix" precisely BECAUSE
the row parameter is present (`camRot.isParameter(...)` without the
intended negation), so the camera group never parses. -/
theorem rotation_rows_rejected_when_present :
    errMsg (read_camera_sublist 0 camRotPList) =
      some ("cal file missing row for camera 3x3 rotation matrix") := by
  rfl

/-- A plain valid canonical camera group (no rotation specification). -/
def camPlainPList : PList := PList.mk
  [("IMAGE_HEIGHT_WIDTH", PValue.arrInt [480, 640]),
   ("LENS_DISTORTION_MODEL", PValue.str "NONE")] []

/-- A canonical calibration file defining the ten consecutive camera
groups `CAMERA 0` .. `CAMERA 9`. -/
def cal10 : PList := PList.mk
  [("DICe_XML_Calibration_File", PValue.bool true),
   ("system_type_3D", PValue.str "GENERIC_SYSTEM")]
  ((List.range 10).map (fun k => ("CAMERA " ++ toString k, camPlainPList)))

/-- C9: the claim says a canonical file with camera groups
`CAMERA 0` .. `CAMERA k-1` parses for every `k` below the configured
maximum of 10, and that reaching the maximum is a ParseError.  The code
does neither: the lookup key is built with `std::endl`
(`DICe_CameraSystem.cpp:108`), so it is `"CAMERA <i>\n"` with a trailing
newline, which never matches a group named `CAMERA <i>` (the name the
writer itself emits at line 567).  Enumeration therefore stops at `i = 0`
and a file with ten camera groups parses "successfully" with zero
cameras instead of raising. -/
theorem canonical_ten_cameras_parses_zero :
    (read_calibration_canonical cal10).toOption.map (fun s => s.cameras.length) = some 0 ∧
    cal10.isSublist ("CAMERA 0") = true ∧
    cal10.isSublist ("CAMERA 0" ++ "\n") = false := by
  refine ⟨?_, ?_, ?_⟩ <;> rfl

/-! ## Calibration parser: legacy VIC3D xml dialect

`DICe_CameraSystem.cpp:275-333`.  `tokenize_line` lives in
`DICe_Parser.cpp` (outside `src/`), so a file is modelled as the list of
its token lines; a token is either a non-numeric word or a numeric token
carrying its value (`strtod`/`atoi` of a non-numeric token give 0, and
no numeric literal equals any of the compared keywords). -/

/-- Modelled from the spec: one token of a tokenized line. -/
inductive Token where
  | lit : String → Token
  | num : ℚ → Token
deriving DecidableEq

/-- Token comparison against a keyword (`tokens[k] == "..."`). -/
def Token.isStr (t : Token) (s : String) : Bool :=
  match t with
  | Token.lit x => x == s
  | Token.num _ => false

/-- `strtod` on a token (non-numeric tokens give 0). -/
def strtodQ : Token → ℚ
  | Token.lit _ => 0
  | Token.num q => q

/-- Truncation toward zero, the `double`-to-`int_t` conversion. -/
def truncQ (q : ℚ) : ℤ :=
  if q < 0 then -(Rat.floor (-q)) else Rat.floor q

/-- `atoi` on a token. -/
def atoiZ (t : Token) : ℤ := truncQ (strtodQ t)

/-- Indexing a token line (`tokens[k]`). -/
def tokAt (l : List Token) (k : ℕ) : Token := l.getD k (Token.lit "")

/-- Whether a line's first token is the given keyword. -/
def headIs (l : List Token) (s : String) : Bool :=
  match l with
  | [] => false
  | t0 :: _ => t0.isStr s

/-- The running state of the VIC3D read loop
(`DICe_CameraSystem.cpp:283-287`): the camera counter, the two
`Camera_Info` slots, and the global image size from `POLYGONMASK`. -/
structure VicState where
  current_camera : ℕ
  info0 : Camera_Info
  info1 : Camera_Info
  xml_img_width : ℤ
  xml_img_height : ℤ

/-- The initial VIC3D state: zero cameras read, default infos, zero
image size. -/
noncomputable def vic_init : VicState :=
  { current_camera := 0, info0 := {}, info1 := {}, xml_img_width := 0, xml_img_height := 0 }

/-- Filling one camera slot from a `CAMERA` record line
(`DICe_CameraSystem.cpp:300-320`): the id from the camera index, the 8
intrinsics `{CX,CY,FX,FY,FS,K1,K2,K3}` from tokens 3-10, the fixed
distortion model, the rotation from the 3 Euler angles at tokens 12-14,
and the translations from tokens 15-17. -/
noncomputable def vic_fill_camera (l : List Token) (info : Camera_Info) : Camera_Info :=
  { info with
    id := "CAMERA " ++ toString (atoiZ (tokAt l 2)),
    intrinsics := fun k =>
      if (k : ℕ) < 8 then strtodQ (tokAt l ((k : ℕ) + 3)) else info.intrinsics k,
    lens_distortion_model := Lens_Distortion_Model.K1R1_K2R2_K3R3,
    rotation_matrix := set_rotation_matrix ((strtodQ (tokAt l 12) : ℚ) : ℝ)
      ((strtodQ (tokAt l 13) : ℚ) : ℝ) ((strtodQ (tokAt l 14) : ℚ) : ℝ),
    tx := strtodQ (tokAt l 15), ty := strtodQ (tokAt l 16), tz := strtodQ (tokAt l 17) }

/-- Processing one token line of a VIC3D file
(`DICe_CameraSystem.cpp:288-324`): empty lines are skipped; a
`POLYGONMASK` line must carry `WIDTH=` and `HEIGHT=` markers and sets
the global image size; any line not starting with `CAMERA` is skipped;
a `CAMERA` line is rejected once two cameras were already read
(line 299), must have a camera index below 10, more than 18 tokens, and
the `ORIENTATION` marker at token 11; it fills the 8 intrinsics
`{CX,CY,FX,FY,FS,K1,K2,K3}` from tokens 3-10, fixes the distortion
model to `K1R1_K2R2_K3R3`, and reads 3 Euler angles and 3 translations
from tokens 12-17. -/
noncomputable def vic_step (st : VicState) (l : List Token) : Except String VicState :=
  match l with
  | [] => Except.ok st
  | t0 :: _ =>
    if t0.isStr ("POLYGONMASK") then
      if ¬ (tokAt l 1).isStr ("WIDTH=") then Except.error ("POLYGONMASK WIDTH=") else
      if ¬ (tokAt l 3).isStr ("HEIGHT=") then Except.error ("POLYGONMASK HEIGHT=") else
      Except.ok { st with xml_img_width := atoiZ (tokAt l 2), xml_img_height := atoiZ (tokAt l 4) }
    else if ¬ t0.isStr ("CAMERA") then Except.ok st
    else if 1 < st.current_camera then Except.error ("only two cameras allowed") else
    if 10 ≤ atoiZ (tokAt l 2) then Except.error ("camera index too large") else
    if l.length ≤ 18 then Except.error ("camera line too short") else
    if ¬ (tokAt l 11).isStr ("ORIENTATION") then Except.error ("ORIENTATION marker") else
    if st.current_camera = 0 then
      Except.ok { st with info0 := vic_fill_camera l st.info0, current_camera := 1 }
    else
      Except.ok { st with info1 := vic_fill_camera l st.info1, current_camera := st.current_camera + 1 }

/-- The VIC3D read loop over all token lines. -/
noncomputable def vic_fold : VicState → List (List Token) → Except String VicState
  | st, [] => Except.ok st
  | st, l :: ls =>
    match vic_step st l with
    | Except.error e => Except.error e
    | Except.ok st' => vic_fold st' ls

/-- The VIC3D branch of `read_calibration_file`
(`DICe_CameraSystem.cpp:275-333`): run the loop, require a positive
parsed image size (line 325), stamp the size on both camera infos,
construct both cameras, require exactly 2 cameras (line 332; trivially
true here), and return a `VIC3D` system. -/
noncomputable def read_calibration_vic3d (file : List (List Token)) :
    Except String Camera_System :=
  match vic_fold vic_init file with
  | Except.error e => Except.error e
  | Except.ok st =>
    if st.xml_img_height ≤ 0 ∨ st.xml_img_width ≤ 0 then
      Except.error ("vic3d image dimensions not set")
    else
      match mk_camera { st.info0 with image_height := st.xml_img_height
                                      image_width := st.xml_img_width } with
      | Except.error e => Except.error e
      | Except.ok c0 =>
        match mk_camera { st.info1 with image_height := st.xml_img_height
                                        image_width := st.xml_img_width } with
        | Except.error e => Except.error e
        | Except.ok c1 =>
          if ([c0, c1] : List Camera_Info).length ≠ 2 then
            Except.error ("cameras size")
          else
            Except.ok { Camera_System.init with
              sys_type := System_Type_3D.VIC3D, cameras := [c0, c1] }

/-- The number of `CAMERA` record lines of a VIC3D file. -/
def vicCameraLines (file : List (List Token)) : ℕ :=
  (file.filter (fun l => headIs l ("CAMERA"))).length

/-- The number of `POLYGONMASK` lines of a VIC3D file. -/
def vicMaskLines (file : List (List Token)) : ℕ :=
  (file.filter (fun l => headIs l ("POLYGONMASK"))).length

/-- `vic_step` on a `CAMERA` record line succeeds only when at most one
camera was read so far, and then increments the camera counter. -/
theorem vic_step_cam (st : VicState) (rest : List Token) (st' : VicState)
    (h : vic_step st (Token.lit "CAMERA" :: rest) = Except.ok st') :
    st.current_camera ≤ 1 ∧ st'.current_camera = st.current_camera + 1 := by
  simp only [vic_step, Token.isStr] at h
  rw [if_neg (by decide), if_neg (by decide)] at h
  split_ifs at h <;> cases h <;> exact ⟨by omega, by simp <;> omega⟩

/-- A successful `vic_step` on a line not starting with `CAMERA` leaves
the camera counter unchanged. -/
theorem vic_step_not_cam (st : VicState) (l : List Token) (st' : VicState)
    (h : vic_step st l = Except.ok st') (hc : headIs l ("CAMERA") = false) :
    st'.current_camera = st.current_camera := by
  cases l with
  | nil =>
    simp only [vic_step] at h
    cases h
    rfl
  | cons t0 rest =>
    cases t0 with
    | num q =>
      simp only [vic_step, Token.isStr] at h
      rw [if_neg (by simp), if_pos (by simp)] at h
      cases h
      rfl
    | lit x =>
      have hx : ¬ x = "CAMERA" := by simpa [headIs, Token.isStr] using hc
      by_cases hp : x = "POLYGONMASK"
      · subst hp
        simp only [vic_step, Token.isStr] at h
        rw [if_pos (by decide)] at h
        split_ifs at h <;> cases h
        rfl
      · simp only [vic_step, Token.isStr] at h
        rw [if_neg (by simp [hp]), if_pos (by simp [hx])] at h
        cases h
        rfl

/-- A successful `vic_step` increments the camera counter exactly on
`CAMERA` lines, and only when at most one camera was read so far. -/
theorem vic_step_count (st : VicState) (l : List Token) (st' : VicState)
    (h : vic_step st l = Except.ok st') :
    (headIs l ("CAMERA") = true →
      st.current_camera ≤ 1 ∧ st'.current_camera = st.current_camera + 1) ∧
    (headIs l ("CAMERA") = false → st'.current_camera = st.current_camera) := by
  constructor
  · intro hc
    cases l with
    | nil => cases hc
    | cons t0 rest =>
      cases t0 with
      | num q => simp [headIs, Token.isStr] at hc
      | lit x =>
        have hx : x = "CAMERA" := by simpa [headIs, Token.isStr] using hc
        subst hx
        exact vic_step_cam st rest st' h
  · exact fun hc => vic_step_not_cam st l st' h hc

/-- A successful `vic_step` changes the parsed image size only on
`POLYGONMASK` lines. -/
theorem vic_step_mask (st : VicState) (l : List Token) (st' : VicState)
    (h : vic_step st l = Except.ok st') (hm : headIs l ("POLYGONMASK") = false) :
    st'.xml_img_width = st.xml_img_width ∧ st'.xml_img_height = st.xml_img_height := by
  cases l with
  | nil =>
    simp only [vic_step] at h
    cases h
    exact ⟨rfl, rfl⟩
  | cons t0 rest =>
    cases t0 with
    | num q =>
      simp only [vic_step, Token.isStr] at h
      rw [if_neg (by simp), if_pos (by simp)] at h
      cases h
      exact ⟨rfl, rfl⟩
    | lit x =>
      have hx : ¬ x = "POLYGONMASK" := by simpa [headIs, Token.isStr] using hm
      simp only [vic_step, Token.isStr] at h
      rw [if_neg (by simp [hx])] at h
      by_cases hc : x = "CAMERA"
      · subst hc
        rw [if_neg (by decide)] at h
        split_ifs at h <;> cases h <;> exact ⟨rfl, rfl⟩
      · rw [if_pos (by simp [hc])] at h
        cases h
        exact ⟨rfl, rfl⟩

/-- Along a successful VIC3D read, the number of `CAMERA` lines can
exceed the remaining camera capacity only if it is zero. -/
theorem vic_fold_ok_count (file : List (List Token)) :
    ∀ (st st' : VicState), vic_fold st file = Except.ok st' →
      st.current_camera + vicCameraLines file ≤ 2 ∨ vicCameraLines file = 0 := by
  induction file with
  | nil =>
    intro st st' _
    right
    rfl
  | cons l ls ih =>
    intro st st' h
    unfold vic_fold at h
    rcases hs : vic_step st l with e | st1
    · rw [hs] at h
      exact absurd h (by simp)
    · rw [hs] at h
      have hstep := vic_step_count st l st1 hs
      by_cases hc : headIs l ("CAMERA") = true
      · obtain ⟨hle, hinc⟩ := hstep.1 hc
        have hrec := ih st1 st' h
        have hcount : vicCameraLines (l :: ls) = vicCameraLines ls + 1 := by
          simp [vicCameraLines, hc]
        left
        rcases hrec with h2 | h2 <;> omega
      · have heq := hstep.2 (by simpa using hc)
        have hrec := ih st1 st' h
        have hcount : vicCameraLines (l :: ls) = vicCameraLines ls := by
          simp [vicCameraLines, hc]
        rcases hrec with h2 | h2
        · left
          omega
        · right
          omega

/-- Along a successful VIC3D read with no `POLYGONMASK` line, the parsed
image size never changes. -/
theorem vic_fold_mask (file : List (List Token)) :
    ∀ (st st' : VicState), vic_fold st file = Except.ok st' → vicMaskLines file = 0 →
      st'.xml_img_width = st.xml_img_width ∧ st'.xml_img_height = st.xml_img_height := by
  induction file with
  | nil =>
    intro st st' h _
    simp only [vic_fold] at h
    cases h
    exact ⟨rfl, rfl⟩
  | cons l ls ih =>
    intro st st' h hm
    have hml : headIs l ("POLYGONMASK") = false := by
      by_contra hx
      simp only [Bool.not_eq_false] at hx
      simp [vicMaskLines, hx, List.filter] at hm
    have hms : vicMaskLines ls = 0 := by
      simpa [vicMaskLines, hml, List.filter] using hm
    unfold vic_fold at h
    rcases hs : vic_step st l with e | st1
    · rw [hs] at h
      exact absurd h (by simp)
    · rw [hs] at h
      have h1 := vic_step_mask st l st1 hs hml
      have h2 := ih st1 st' h hms
      exact ⟨h2.1.trans h1.1, h2.2.trans h1.2⟩

/-- A well-formed VIC3D `POLYGONMASK` line declaring width 1000 and
height 500. -/
def vicMaskLine : List Token :=
  [Token.lit "POLYGONMASK", Token.lit "WIDTH=", Token.num 1000,
   Token.lit "HEIGHT=", Token.num 500]

/-- A well-formed VIC3D `CAMERA` record line with index `k`: 8
intrinsics at tokens 3-10, the `ORIENTATION` marker at token 11, 3 Euler
angles and 3 translations, and 19 tokens in total. -/
def vicCamLine (k : ℚ) : List Token :=
  [Token.lit "CAMERA", Token.lit "id=", Token.num k,
   Token.num 100, Token.num 200, Token.num 300, Token.num 400, Token.num 0,
   Token.num 0, Token.num 0, Token.num 0,
   Token.lit "ORIENTATION", Token.num 0, Token.num 0, Token.num 0,
   Token.num 10, Token.num 20, Token.num 30, Token.num 0]

/-- A VIC3D file with the polygon mask and exactly two well-formed
camera records. -/
def vicFilePos : List (List Token) := [vicMaskLine, vicCamLine 0, vicCamLine 1]

/-- A VIC3D file with three camera records. -/
def vicFile3 : List (List Token) :=
  [vicMaskLine, vicCamLine 0, vicCamLine 1, vicCamLine 2]

/-- A VIC3D file with no `POLYGONMASK` line. -/
def vicFileNoMask : List (List Token) := [vicCamLine 0, vicCamLine 1]

/-- C8: parsing a VIC3D-dialect file fails whenever it holds more than 2
`CAMERA` records (`DICe_CameraSystem.cpp:299`) or no `POLYGONMASK`
width/height declaration (line 325); and the file with
`POLYGONMASK WIDTH= 1000 HEIGHT= 500` and exactly two well-formed
`CAMERA` records parses to a system with `system_type = VIC3D` and
exactly 2 cameras, each with `image_width = 1000` and
`image_height = 500`. -/
theorem vic3d_parse_spec :
    (∀ file, 2 < vicCameraLines file → (read_calibration_vic3d file).isOk = false) ∧
    (∀ file, vicMaskLines file = 0 → (read_calibration_vic3d file).isOk = false) ∧
    (read_calibration_vic3d vicFilePos).toOption.map
        (fun s => (s.sys_type, s.cameras.map (fun c => (c.image_width, c.image_height)))) =
      some (System_Type_3D.VIC3D, [(1000, 500), (1000, 500)]) := by
  refine ⟨?_, ?_, ?_⟩
  · intro file hcount
    unfold read_calibration_vic3d
    rcases hf : vic_fold vic_init file with e | st
    · rfl
    · have hc := vic_fold_ok_count file vic_init st hf
      have : vic_init.current_camera = 0 := rfl
      omega
  · intro file hmask
    unfold read_calibration_vic3d
    rcases hf : vic_fold vic_init file with e | st
    · rfl
    · have hm := vic_fold_mask file vic_init st hf hmask
      have hz : st.xml_img_height = 0 := hm.2.trans rfl
      simp [hz]
      rfl
  · rfl

/-- Witness for C8: the file with three camera records and the file
without a `POLYGONMASK` line both fail to parse. -/
theorem vic3d_parse_spec_witness :
    (read_calibration_vic3d vicFile3).isOk = false ∧
    (read_calibration_vic3d vicFileNoMask).isOk = false :=
  ⟨vic3d_parse_spec.1 vicFile3 (by decide),
   vic3d_parse_spec.2.1 vicFileNoMask (by decide)⟩

/-! ## Calibration parser: legacy txt dialect

`DICe_CameraSystem.cpp:336-437`: a first pass counts the non-comment
value lines and rejects any `TRANSFORM` token (lines 353-361), the count
must be 24 (Euler variant) or 30 (rotation-matrix variant) (line 362),
then a second pass assigns the values positionally: 8+8 intrinsics,
extrinsics, image height, image width. -/

/-- The first pass of the txt parser (`DICe_CameraSystem.cpp:353-361`):
counts non-comment, nonempty lines; any line starting with `TRANSFORM`
raises. -/
def countValues : List (List Token) → Except String ℕ
  | [] => Except.ok 0
  | l :: ls =>
    match l with
    | [] => countValues ls
    | t0 :: _ =>
      if t0.isStr ("#") then countValues ls
      else if t0.isStr ("TRANSFORM") then
        Except.error ("Error, custom transforms are no longer supported in the txt calibration file format")
      else
        match countValues ls with
        | Except.error e => Except.error e
        | Except.ok n => Except.ok (n + 1)

/-- The sequence of values read by the second pass
(`DICe_CameraSystem.cpp:377-400`): `strtod` of the first token of every
non-comment, nonempty line. -/
def valueList : List (List Token) → List ℚ
  | [] => []
  | l :: ls =>
    match l with
    | [] => valueList ls
    | t0 :: _ =>
      if t0.isStr ("#") then valueList ls
      else strtodQ t0 :: valueList ls

/-- Whether some non-comment line starts with the `TRANSFORM` token. -/
def hasTransformLine (file : List (List Token)) : Bool :=
  file.any (fun l =>
    match l with
    | [] => false
    | t0 :: _ => !(t0.isStr ("#")) && t0.isStr ("TRANSFORM"))

/-- The parsed image height: the second-to-last value, converted to
`int_t`. -/
def txtHeight (file : List (List Token)) : ℤ :=
  truncQ ((valueList file).getD ((valueList file).length - 2) 0)

/-- The parsed image width: the last value, converted to `int_t`. -/
def txtWidth (file : List (List Token)) : ℤ :=
  truncQ ((valueList file).getD ((valueList file).length - 1) 0)

/-- The extrinsic value block (`ext_values`,
`DICe_CameraSystem.cpp:374`): values 16 .. total-2. -/
def txt_ext (vals : List ℚ) (n : ℕ) : List ℚ := (vals.drop 16).take (n - 18)

/-- Camera 0 of the txt dialect (`DICe_CameraSystem.cpp:348-350,
371, 385-386, 424-425`): intrinsics `{CX,...,K3}` from the first 8
values, fixed `K1R1_K2R2_K3R3` distortion, identity rotation, zero
translation, the parsed image size. -/
noncomputable def txt_camera_0 (vals : List ℚ) (n : ℕ) : Camera_Info :=
  { id := "CAMERA 0",
    intrinsics := fun k => if (k : ℕ) < 8 then vals.getD (k : ℕ) 0 else 0,
    image_height := truncQ (vals.getD (n - 2) 0),
    image_width := truncQ (vals.getD (n - 1) 0),
    lens_distortion_model := Lens_Distortion_Model.K1R1_K2R2_K3R3 }

/-- Camera 1 of the txt dialect (`DICe_CameraSystem.cpp:351, 372,
387-388, 403-428`): intrinsics from values 8-15, translations from the
last 3 extrinsic values, and the rotation either from the 3 Euler angles
(24-value variant) or from the 9 row-major matrix entries (30-value
variant). -/
noncomputable def txt_camera_1 (vals : List ℚ) (n : ℕ) : Camera_Info :=
  { id := "CAMERA 1",
    intrinsics := fun k => if (k : ℕ) < 8 then vals.getD ((k : ℕ) + 8) 0 else 0,
    tx := (txt_ext vals n).getD ((txt_ext vals n).length - 3) 0,
    ty := (txt_ext vals n).getD ((txt_ext vals n).length - 2) 0,
    tz := (txt_ext vals n).getD ((txt_ext vals n).length - 1) 0,
    rotation_matrix :=
      if n = 24 then
        set_rotation_matrix (((txt_ext vals n).getD 0 0 : ℚ) : ℝ)
          (((txt_ext vals n).getD 1 0 : ℚ) : ℝ) (((txt_ext vals n).getD 2 0 : ℚ) : ℝ)
      else fun a b => (((txt_ext vals n).getD ((a : ℕ) * 3 + (b : ℕ)) 0 : ℚ) : ℝ),
    image_height := truncQ (vals.getD (n - 2) 0),
    image_width := truncQ (vals.getD (n - 1) 0),
    lens_distortion_model := Lens_Distortion_Model.K1R1_K2R2_K3R3 }

/-- The txt branch of `read_calibration_file`
(`DICe_CameraSystem.cpp:336-437`): first pass (count + `TRANSFORM`
rejection), count validation (24 or 30), second pass, image-size checks
(lines 401-402), camera construction (lines 432-435), and a
`GENERIC_SYSTEM` result with the two cameras. -/
noncomputable def read_calibration_txt (file : List (List Token)) :
    Except String Camera_System :=
  match countValues file with
  | Except.error e => Except.error e
  | Except.ok n =>
    if n ≠ 24 ∧ n ≠ 30 then
      Except.error ("Error, invalid number of paramers in txt calibration file")
    else if truncQ ((valueList file).getD (n - 2) 0) < 0 then
      Except.error ("txt image height")
    else if truncQ ((valueList file).getD (n - 1) 0) < 0 then
      Except.error ("txt image width")
    else
      match mk_camera (txt_camera_0 (valueList file) n) with
      | Except.error e => Except.error e
      | Except.ok c0 =>
        match mk_camera (txt_camera_1 (valueList file) n) with
        | Except.error e => Except.error e
        | Except.ok c1 =>
          Except.ok { Camera_System.init with
            sys_type := System_Type_3D.GENERIC_SYSTEM, cameras := [c0, c1] }

/-- Both passes agree: a successful first pass counts exactly the values
the second pass reads. -/
theorem countValues_length (file : List (List Token)) :
    ∀ n, countValues file = Except.ok n → (valueList file).length = n := by
  induction file with
  | nil =>
    intro n h
    simp only [countValues] at h
    cases h
    rfl
  | cons l ls ih =>
    intro n h
    cases l with
    | nil =>
      simp only [countValues] at h
      simpa [valueList] using ih n h
    | cons t0 rest =>
      simp only [countValues] at h
      split_ifs at h with h1 h2
      · simpa [valueList, h1] using ih n h
      · rcases hc : countValues ls with e | m
        · rw [hc] at h
          exact absurd h (by simp)
        · rw [hc] at h
          simp only [Except.ok.injEq] at h
          have hl := ih m hc
          have h1b : t0.isStr ("#") = false := by simpa using h1
          simp [valueList, h1b, hl]
          omega

/-- The first pass succeeds exactly when no non-comment line starts
with the `TRANSFORM` token. -/
theorem countValues_isOk (file : List (List Token)) :
    (countValues file).isOk = !(hasTransformLine file) := by
  induction file with
  | nil => rfl
  | cons l ls ih =>
    cases l with
    | nil =>
      simpa [countValues, hasTransformLine, List.any_cons] using ih
    | cons t0 rest =>
      by_cases h1 : t0.isStr ("#") = true
      · simpa [countValues, hasTransformLine, List.any_cons, h1] using ih
      · have h1b : t0.isStr ("#") = false := by simpa using h1
        by_cases h2 : t0.isStr ("TRANSFORM") = true
        · simp [countValues, hasTransformLine, List.any_cons, h1b, h2, Except.isOk, Except.toBool]
        · have h2b : t0.isStr ("TRANSFORM") = false := by simpa using h2
          rcases hc : countValues ls with e | m
          · have hircons := ih
            rw [hc] at hircons
            simp [countValues, hasTransformLine, List.any_cons, h1b, h2b, hc,
              Except.isOk, Except.toBool] at hircons ⊢
            simpa [hasTransformLine] using hircons
          · have hircons := ih
            rw [hc] at hircons
            simp [countValues, hasTransformLine, List.any_cons, h1b, h2b, hc,
              Except.isOk, Except.toBool] at hircons ⊢
            simpa [hasTransformLine] using hircons

/-- C7 (amended): legacy txt parsing succeeds iff the non-comment value
count is exactly 24 or 30 AND no line starts with the `TRANSFORM` token
AND, additionally, the parsed image height and width (the last two
values) are positive — nonnegativity is enforced by the checks at
`DICe_CameraSystem.cpp:401-402` and positivity by the camera
constructor.  The first-pass failure is exactly the presence of a
`TRANSFORM` line. -/
theorem txt_parse_success_iff (file : List (List Token)) :
    ((read_calibration_txt file).isOk = true ↔
      ((countValues file = Except.ok 24 ∨ countValues file = Except.ok 30) ∧
        0 < txtHeight file ∧ 0 < txtWidth file)) ∧
    ((countValues file).isOk = false ↔ hasTransformLine file = true) := by
  constructor
  · rcases h : countValues file with e | n
    · simp [read_calibration_txt, h, Except.isOk, Except.toBool]
    · have hlen := countValues_length file n h
      have hH : txtHeight file = truncQ ((valueList file).getD (n - 2) 0) := by
        rw [txtHeight, hlen]
      have hW : txtWidth file = truncQ ((valueList file).getD (n - 1) 0) := by
        rw [txtWidth, hlen]
      simp only [read_calibration_txt, h]
      by_cases hn : n = 24 ∨ n = 30
      · rw [if_neg (by rcases hn with hx | hx <;> simp [hx])]
        rw [← hH, ← hW]
        by_cases hHlt : txtHeight file < 0
        · rw [if_pos hHlt]
          simp only [Except.isOk, Except.toBool, Bool.false_eq_true, false_iff]
          rintro ⟨-, hpos, -⟩
          omega
        · rw [if_neg hHlt]
          by_cases hWlt : txtWidth file < 0
          · rw [if_pos hWlt]
            simp only [Except.isOk, Except.toBool, Bool.false_eq_true, false_iff]
            rintro ⟨-, -, hpos⟩
            omega
          · rw [if_neg hWlt]
            simp only [mk_camera, txt_camera_0, txt_camera_1, ← hH, ← hW]
            by_cases hH0 : txtHeight file ≤ 0
            · rw [if_pos (Or.inl hH0)]
              simp only [Except.isOk, Except.toBool, Bool.false_eq_true, false_iff]
              rintro ⟨-, hpos, -⟩
              omega
            · by_cases hW0 : txtWidth file ≤ 0
              · rw [if_pos (Or.inr hW0)]
                simp only [Except.isOk, Except.toBool, Bool.false_eq_true, false_iff]
                rintro ⟨-, -, hpos⟩
                omega
              · rw [if_neg (by push_neg; exact ⟨by omega, by omega⟩),
                  if_neg (by push_neg; exact ⟨by omega, by omega⟩)]
                simp only [Except.isOk, Except.toBool, true_iff]
                exact ⟨by rcases hn with hx | hx <;> simp [hx], by omega, by omega⟩
      · rw [if_pos (by push_neg at hn; exact hn)]
        push_neg at hn
        simp [Except.isOk, Except.toBool, hn.1, hn.2]
  · rw [countValues_isOk]
    cases hasTransformLine file <;> simp

/-- A single-value line of the legacy txt format. -/
def txtLine (q : ℚ) : List Token := [Token.num q]

/-- A 24-value legacy txt file whose second-to-last value (the image
height) is negative. -/
def txtFile24neg : List (List Token) :=
  List.replicate 16 (txtLine 1) ++
    [txtLine 0, txtLine 0, txtLine 0, txtLine 0, txtLine 0, txtLine 0,
     txtLine (-5), txtLine 640]

/-- C7 counterexample: the claim's condition (exactly 24 non-comment
value lines, no `TRANSFORM` token) holds for this file, yet parsing
fails: the 23rd value is the image height, `-5`, rejected at
`DICe_CameraSystem.cpp:401`. -/
theorem txt_count24_negative_height_fails :
    countValues txtFile24neg = Except.ok 24 ∧
    hasTransformLine txtFile24neg = false ∧
    (read_calibration_txt txtFile24neg).isOk = false := by
  refine ⟨?_, ?_, ?_⟩ <;> rfl
